import Mathlib

/-!
# Chroma reconstruction: a shallow embedding of `lib/chroma.js`

The JavaScript module reconstructs full-resolution Cb/Cr planes from
YCbCr data.  The embedding below follows the source function by function.

Modelling conventions

* Samples are exact rationals (`ℚ`).  The rounding of JavaScript doubles and
  of the `Float32Array` buffer is not modelled; every statement below is about
  the exact arithmetic of the formulas.
* The decimal constants of the source are written as fractions
  (`1.772` is `1772 / 1000`).
* One-sided bounds that rounding can break are checked against a second, double-precision
  evaluation of `clampCbCr` (`clampCbCrD`, section "Double-precision evaluation").
* Division follows the convention `q / 0 = 0`; the source would produce
  `NaN` or an infinity there.  Statements that depend on a quotient say when
  its denominator is non-zero.
* Coordinates are integers (`ℤ`) because the source reads at `x - 1`.
* A `for (let i = 0; i < n; i++)` loop is a left fold over `List.range n`.
* `Wrapper.from` raises a `TypeError` on a record without rows and stores `NaN`
  for a row shorter than the first one; both are `none` in the embedding.
-/

namespace Chroma

/-! ## Data model -/

/-- Component record `{scaleX, scaleY, lines}` exchanged with the decoder. -/
structure Component where
  scaleX : ℚ
  scaleY : ℚ
  lines : List (List ℚ)
  deriving DecidableEq

/-- Class `Wrapper`: a dense row-major plane of `xRes * yRes` samples. -/
structure Wrapper where
  xRes : Nat
  yRes : Nat
  scaleX : ℚ
  scaleY : ℚ
  data : List ℚ
  deriving DecidableEq

/-- A counting loop `for (let i = 0; i < n; i++) body(i)` threading a state. -/
def forLoop {σ : Type} (n : Nat) (body : Nat → σ → σ) (s : σ) : σ :=
  (List.range n).foldl (fun acc i => body i acc) s

/-- The constructor `new Wrapper(xRes, yRes, scaleX, scaleY)`: a zero-filled buffer. -/
def Wrapper.new (xRes yRes : Nat) (scaleX scaleY : ℚ) : Wrapper :=
  { xRes := xRes, yRes := yRes, scaleX := scaleX, scaleY := scaleY,
    data := List.replicate (xRes * yRes) 0 }

/-- Method `get(x, y)`: the stored sample, or `0` outside the plane. -/
def Wrapper.get (w : Wrapper) (x y : ℤ) : ℚ :=
  if 0 ≤ x ∧ x < w.xRes ∧ 0 ≤ y ∧ y < w.yRes then
    w.data.getD ((w.xRes : ℤ) * y + x).toNat 0
  else
    0

/-- Method `set(x, y, v)`: stores `v`, or does nothing outside the plane. -/
def Wrapper.set (w : Wrapper) (x y : ℤ) (v : ℚ) : Wrapper :=
  if 0 ≤ x ∧ x < w.xRes ∧ 0 ≤ y ∧ y < w.yRes then
    { w with data := w.data.set ((w.xRes : ℤ) * y + x).toNat v }
  else
    w

/-- Static method `Wrapper.from(component)`. -/
def Wrapper.fromComponent (component : Component) : Option Wrapper :=
  match component.lines with
  | [] => none
  | row0 :: _ =>
    let xRes := row0.length
    let yRes := component.lines.length
    if component.lines.all (fun row => decide (xRes ≤ row.length)) then
      let blank := Wrapper.new xRes yRes component.scaleX component.scaleY
      some (forLoop yRes (fun y blank =>
        forLoop xRes (fun x blank =>
          blank.set x y ((component.lines.getD y []).getD x 0)) blank) blank)
    else
      none

/-- Method `toComponent()`: `yRes` rows of `xRes` samples read through `get`. -/
def Wrapper.toComponent (w : Wrapper) : Component :=
  { scaleX := w.scaleX, scaleY := w.scaleY,
    lines := (List.range w.yRes).map (fun (y : Nat) =>
      (List.range w.xRes).map (fun (x : Nat) => w.get (x : ℤ) (y : ℤ))) }

/-! ## Colour constants -/

/-- Range shift for Cb and Cr. -/
def shift : ℚ := 128

/-- Constant `kb = 0.114`. -/
def kb : ℚ := 114 / 1000

/-- Constant `kr = 0.299`. -/
def kr : ℚ := 299 / 1000

/-- Constant `kb2 = 1.772`. -/
def kb2 : ℚ := 1772 / 1000

/-- Constant `kr2 = 1.402`. -/
def kr2 : ℚ := 1402 / 1000

/-- Constant `kb3 = 0.3441363`. -/
def kb3 : ℚ := 3441363 / 10000000

/-- Constant `kr3 = 0.71413636`. -/
def kr3 : ℚ := 71413636 / 100000000

/-! ## Gamut math -/

/-- Function `clamp(minL, v, maxL)`. -/
def clamp (minL v maxL : ℚ) : ℚ :=
  if v < minL then minL
  else if v > maxL then maxL
  else v

/-- The red channel implied by `(Y, Cr)`. -/
def red (Y Cr : ℚ) : ℚ := Y + kr2 * (Cr - shift)

/-- The green channel implied by `(Y, Cb, Cr)`. -/
def green (Y Cb Cr : ℚ) : ℚ := Y - kb3 * (Cb - shift) - kr3 * (Cr - shift)

/-- The blue channel implied by `(Y, Cb)`. -/
def blue (Y Cb : ℚ) : ℚ := Y + kb2 * (Cb - shift)

/-- Function `errorCbCr(Y, Cb, Cr)`: summed distance of R, G, B from `[0, 255]`. -/
def errorCbCr (Y Cb Cr : ℚ) : ℚ :=
  let r := Y + kr2 * (Cr - shift)
  let g := Y - kb3 * (Cb - shift) - kr3 * (Cr - shift)
  let b := Y + kb2 * (Cb - shift)
  let rClamp := clamp 0 r 255
  let gClamp := clamp 0 g 255
  let bClamp := clamp 0 b 255
  let rError := |r - rClamp|
  let gError := |g - gClamp|
  let bError := |b - bClamp|
  rError + gError + bError

/-- Local `minCb` of `clampCbCr` after the `max(0, minCb)` update. -/
def boxMinCb (Y : ℚ) : ℚ := max 0 (shift - Y / kb2)

/-- Local `maxCb` of `clampCbCr` (the cap at 255 is commented out in the source). -/
def boxMaxCb (Y : ℚ) : ℚ := shift + (255 - Y) / kb2

/-- Local `minCr` of `clampCbCr` after the `max(0, minCr)` update. -/
def boxMinCr (Y : ℚ) : ℚ := max 0 (shift - Y / kr2)

/-- Local `maxCr` of `clampCbCr` after the `min(maxCr, 255)` update. -/
def boxMaxCr (Y : ℚ) : ℚ := min (shift + (255 - Y) / kr2) 255

/-- Local `minCbCr` of `clampCbCr`. -/
def minCbCr (Y : ℚ) : ℚ := Y + (kb3 + kr3) * shift - 255

/-- Local `maxCbCr` of `clampCbCr`. -/
def maxCbCr (Y : ℚ) : ℚ := Y + (kb3 + kr3) * shift - 0

/-- Function `clampCbCr(Y, Cb, Cr)`, returning the pair `[Cb, Cr]`. -/
def clampCbCr (Y Cb Cr : ℚ) : ℚ × ℚ :=
  let minCb := boxMinCb Y
  let maxCb := boxMaxCb Y
  let Cb := clamp minCb Cb maxCb
  let minCr := boxMinCr Y
  let maxCr := boxMaxCr Y
  let Cr := clamp minCr Cr maxCr
  let sumCbCr := Cb * kb3 + kr3 * Cr
  if sumCbCr > maxCbCr Y then
    let cbFree := Cb - minCb
    let crFree := Cr - minCr
    let x := (maxCbCr Y - kb3 * minCb - kr3 * minCr) / (kb3 * cbFree + kr3 * crFree)
    (minCb + cbFree * x, minCr + crFree * x)
  else if sumCbCr < minCbCr Y then
    let cbFree := maxCb - Cb
    let crFree := maxCr - Cr
    let x := (minCbCr Y - kb3 * Cb - kr3 * Cr) / (kb3 * cbFree + kr3 * crFree)
    (Cb + cbFree * x, Cr + cbFree * x)
  else
    (Cb, Cr)

/-- In `clampCbCr`: the value of `Cb` after `Cb = clamp(minCb, Cb, maxCb)`. -/
def boxCb (Y Cb : ℚ) : ℚ := clamp (boxMinCb Y) Cb (boxMaxCb Y)

/-- In `clampCbCr`: the value of `Cr` after `Cr = clamp(minCr, Cr, maxCr)`. -/
def boxCr (Y Cr : ℚ) : ℚ := clamp (boxMinCr Y) Cr (boxMaxCr Y)

/-- Local `sumCbCr` of `clampCbCr`. -/
def sumCbCr (Y Cb Cr : ℚ) : ℚ := boxCb Y Cb * kb3 + kr3 * boxCr Y Cr

/-- In the `sumCbCr > maxCbCr` branch: the denominator `kb3 * cbFree + kr3 * crFree`. -/
def highDenominator (Y Cb Cr : ℚ) : ℚ :=
  kb3 * (boxCb Y Cb - boxMinCb Y) + kr3 * (boxCr Y Cr - boxMinCr Y)

/-- In the `sumCbCr > maxCbCr` branch: the local factor `x`. -/
def highFactor (Y Cb Cr : ℚ) : ℚ :=
  (maxCbCr Y - kb3 * boxMinCb Y - kr3 * boxMinCr Y) / highDenominator Y Cb Cr

/-- In the `sumCbCr < minCbCr` branch: the denominator `kb3 * cbFree + kr3 * crFree`. -/
def lowDenominator (Y Cb Cr : ℚ) : ℚ :=
  kb3 * (boxMaxCb Y - boxCb Y Cb) + kr3 * (boxMaxCr Y - boxCr Y Cr)

/-- In the `sumCbCr < minCbCr` branch: the local factor `x` as an exact quotient.  The
quotient the source computes in double precision is `lowFactorD`; the two can differ in
the last bit. -/
def lowFactor (Y Cb Cr : ℚ) : ℚ :=
  (minCbCr Y - kb3 * boxCb Y Cb - kr3 * boxCr Y Cr) / lowDenominator Y Cb Cr

/-- Function `clampTwoCbCr`, returning `[newCb0, newCr0, newCb1, newCr1]`. -/
def clampTwoCbCr (Y0 Cb0 Cr0 Y1 Cb1 Cr1 : ℚ) : ℚ × ℚ × ℚ × ℚ :=
  let err0 := errorCbCr Y0 Cb0 Cr0
  let err1 := errorCbCr Y1 Cb1 Cr1
  if err0 > err1 then
    let first := clampCbCr Y0 Cb0 Cr0
    let newCb0 := first.1
    let newCr0 := first.2
    let newCb1 := (Cb0 + Cb1) - newCb0
    let newCr1 := (Cr0 + Cr1) - newCr0
    let second := clampCbCr Y1 newCb1 newCr1
    (newCb0, newCr0, second.1, second.2)
  else
    let first := clampCbCr Y1 Cb1 Cr1
    let newCb1 := first.1
    let newCr1 := first.2
    let newCb0 := (Cb0 + Cb1) - newCb1
    let newCr0 := (Cr0 + Cr1) - newCr1
    let second := clampCbCr Y0 newCb0 newCr0
    (second.1, second.2, newCb1, newCr1)

/-- In `clampTwoCbCr`: the pair returned by the first `clampCbCr` call. -/
def clampTwoFirst (Y0 Cb0 Cr0 Y1 Cb1 Cr1 : ℚ) : ℚ × ℚ :=
  if errorCbCr Y0 Cb0 Cr0 > errorCbCr Y1 Cb1 Cr1 then clampCbCr Y0 Cb0 Cr0
  else clampCbCr Y1 Cb1 Cr1

/-- In `clampTwoCbCr`: the pair handed to the second `clampCbCr` call. -/
def clampTwoResidual (Y0 Cb0 Cr0 Y1 Cb1 Cr1 : ℚ) : ℚ × ℚ :=
  if errorCbCr Y0 Cb0 Cr0 > errorCbCr Y1 Cb1 Cr1 then
    ((Cb0 + Cb1) - (clampCbCr Y0 Cb0 Cr0).1, (Cr0 + Cr1) - (clampCbCr Y0 Cb0 Cr0).2)
  else
    ((Cb0 + Cb1) - (clampCbCr Y1 Cb1 Cr1).1, (Cr0 + Cr1) - (clampCbCr Y1 Cb1 Cr1).2)

/-- In `clampTwoCbCr`: the luma passed to the second `clampCbCr` call. -/
def clampTwoSecondY (Y0 Cb0 Cr0 Y1 Cb1 Cr1 : ℚ) : ℚ :=
  if errorCbCr Y0 Cb0 Cr0 > errorCbCr Y1 Cb1 Cr1 then Y1 else Y0

/-! ## Adaptive supersampler -/

/-- Local `k12` of `adaptiveSupersampler`. -/
def weightK12 (L1 L2 L3 L4 : ℚ) : ℚ :=
  let a := |L1 - L2| + 1
  let b := |L2 - L3| + 1
  let c := |L3 - L4| + 1
  let c2 := c * c
  c2 / ((a + c) * (b + c))

/-- Local `k32` of `adaptiveSupersampler`. -/
def weightK32 (L3 L4 L5 L6 : ℚ) : ℚ :=
  let c := |L3 - L4| + 1
  let d := |L4 - L5| + 1
  let e := |L5 - L6| + 1
  let c2 := c * c
  c2 / ((c + d) * (c + e))

/-- Local `k13` of `adaptiveSupersampler`. -/
def weightK13 (L1 L2 L5 L6 : ℚ) : ℚ :=
  let a := |L1 - L2| + 1
  let e := |L5 - L6| + 1
  a / (a + e)

/-- Function `adaptiveSupersampler`, returning `[Bl, Br, Rl, Rr]`. -/
def adaptiveSupersampler (L1 L2 L3 L4 L5 L6 B1 B2 B3 R1 R2 R3 : ℚ) : ℚ × ℚ × ℚ × ℚ :=
  let k12 := weightK12 L1 L2 L3 L4
  let k32 := weightK32 L3 L4 L5 L6
  let from1Bl := (1 - k12) * B2 + k12 * B1
  let from1Br := (1 - k12) * B2 + k12 * (B2 + B2 - B1)
  let from1Rl := (1 - k12) * R2 + k12 * R1
  let from1Rr := (1 - k12) * R2 + k12 * (R2 + R2 - R1)
  let from3Bl := (1 - k32) * B2 + k32 * (B2 + B2 - B3)
  let from3Br := (1 - k32) * B2 + k32 * B3
  let from3Rl := (1 - k32) * R2 + k32 * (R2 + R2 - R3)
  let from3Rr := (1 - k32) * R2 + k32 * R3
  let k13 := weightK13 L1 L2 L5 L6
  let Bl := (1 - k13) * from1Bl + k13 * from3Bl
  let Br := (1 - k13) * from1Br + k13 * from3Br
  let Rl := (1 - k13) * from1Rl + k13 * from3Rl
  let Rr := (1 - k13) * from1Rr + k13 * from3Rr
  (Bl, Br, Rl, Rr)

/-! ## Format pipelines -/

/-- Mutable planes of the 4:4:4 loop: the two chroma inputs and the two outputs. -/
structure Diffusion where
  input2 : Wrapper
  input3 : Wrapper
  output2 : Wrapper
  output3 : Wrapper
  deriving DecidableEq

/-- Body of the 4:4:4 loop at pixel `(x, y)`. -/
def diffuseStep (input1 : Wrapper) (x y : ℤ) (s : Diffusion) : Diffusion :=
  let Y := input1.get x y
  let Cb := s.input2.get x y
  let Cr := s.input3.get x y
  let clamped := clampCbCr Y Cb Cr
  let clampedCb := clamped.1
  let clampedCr := clamped.2
  let output2 := s.output2.set x y clampedCb
  let output3 := s.output3.set x y clampedCr
  let errorCb := Cb - clampedCr
  let vRCb := s.input2.get (x + 1) y
  let vLCb := s.input2.get (x - 1) (y + 1)
  let vBCb := s.input2.get x (y + 1)
  let input2 := s.input2.set (x + 1) y (vRCb + errorCb / 2)
  let input2 := input2.set (x - 1) (y + 1) (vLCb + errorCb / 4)
  let input2 := input2.set x (y + 1) (vBCb + errorCb / 4)
  let errorCr := Cr - clampedCr
  let vRCr := s.input3.get (x + 1) y
  let vLCr := s.input3.get (x - 1) (y + 1)
  let vBCr := s.input3.get x (y + 1)
  let input3 := s.input3.set (x + 1) y (vRCr + errorCr / 2)
  let input3 := input3.set (x - 1) (y + 1) (vLCr + errorCr / 4)
  let input3 := input3.set x (y + 1) (vBCr + errorCr / 4)
  { input2 := input2, input3 := input3, output2 := output2, output3 := output3 }

/-- The 4:4:4 branch of `experiment` after the three `Wrapper.from` calls. -/
def pipeline444 (input1 input2 input3 : Wrapper) : Component × Component :=
  let chromaX := input2.xRes
  let chromaY := input2.yRes
  let output2 := Wrapper.new chromaX chromaY 1 1
  let output3 := Wrapper.new chromaX chromaY 1 1
  let final := forLoop chromaY (fun y s =>
    forLoop chromaX (fun x s => diffuseStep input1 x y s) s)
    { input2 := input2, input3 := input3, output2 := output2, output3 := output3 }
  (final.output2.toComponent, final.output3.toComponent)

/-- Body of the horizontal supersampling loops (4:2:2, and step 2 of 4:2:0). -/
def horizontalStep (input1 input2 input3 : Wrapper) (x y : ℤ)
    (out : Wrapper × Wrapper) : Wrapper × Wrapper :=
  let x2 := x * 2
  let L1 := input1.get (x2 - 2) y
  let L2 := input1.get (x2 - 1) y
  let L3 := input1.get x2 y
  let L4 := input1.get (x2 + 1) y
  let L5 := input1.get (x2 + 2) y
  let L6 := input1.get (x2 + 3) y
  let B1 := input2.get (x - 1) y
  let B2 := input2.get x y
  let B3 := input2.get (x + 1) y
  let R1 := input3.get (x - 1) y
  let R2 := input3.get x y
  let R3 := input3.get (x + 1) y
  let s := adaptiveSupersampler L1 L2 L3 L4 L5 L6 B1 B2 B3 R1 R2 R3
  let c := clampTwoCbCr L3 s.1 s.2.2.1 L4 s.2.1 s.2.2.2
  let Bl := c.1
  let Rl := c.2.1
  let Br := c.2.2.1
  let Rr := c.2.2.2
  let output2 := out.1.set x2 y Bl
  let output2 := output2.set (x2 + 1) y Br
  let output3 := out.2.set x2 y Rl
  let output3 := output3.set (x2 + 1) y Rr
  (output2, output3)

/-- In `horizontalStep`: the clamped quadruple `[Bl, Rl, Br, Rr]` computed at `(x, y)`. -/
def horizontalValues (input1 input2 input3 : Wrapper) (x y : ℤ) : ℚ × ℚ × ℚ × ℚ :=
  let x2 := x * 2
  let L1 := input1.get (x2 - 2) y
  let L2 := input1.get (x2 - 1) y
  let L3 := input1.get x2 y
  let L4 := input1.get (x2 + 1) y
  let L5 := input1.get (x2 + 2) y
  let L6 := input1.get (x2 + 3) y
  let B1 := input2.get (x - 1) y
  let B2 := input2.get x y
  let B3 := input2.get (x + 1) y
  let R1 := input3.get (x - 1) y
  let R2 := input3.get x y
  let R3 := input3.get (x + 1) y
  let s := adaptiveSupersampler L1 L2 L3 L4 L5 L6 B1 B2 B3 R1 R2 R3
  clampTwoCbCr L3 s.1 s.2.2.1 L4 s.2.1 s.2.2.2

/-- A horizontal supersampling pass over `rows` rows and `chromaX` columns. -/
def horizontalPass (input1 input2 input3 : Wrapper) (rows chromaX : Nat)
    (out : Wrapper × Wrapper) : Wrapper × Wrapper :=
  forLoop rows (fun y out =>
    forLoop chromaX (fun x out => horizontalStep input1 input2 input3 x y out) out) out

/-- The 4:2:2 branch of `experiment` after the three `Wrapper.from` calls. -/
def pipeline422 (input1 input2 input3 : Wrapper) : Component × Component :=
  let lumaX := input1.xRes
  let lumaY := input1.yRes
  let chromaX := input2.xRes
  let chromaY := input2.yRes
  let output2 := Wrapper.new lumaX lumaY 1 1
  let output3 := Wrapper.new lumaX lumaY 1 1
  let final := horizontalPass input1 input2 input3 chromaY chromaX (output2, output3)
  (final.1.toComponent, final.2.toComponent)

/-- Step 1 of 4:2:0, first loop: fills `intermediate1` from pairs of luma samples. -/
def lumaPass (input1 : Wrapper) (lumaY chromaX : Nat) (intermediate1 : Wrapper) : Wrapper :=
  forLoop lumaY (fun y acc =>
    forLoop chromaX (fun x acc =>
      let x2 := (x : ℤ) * 2
      let Y0 := input1.get x2 y
      let Y1 := input1.get (x2 + 1) y
      let Y := (Y0 + Y1) / 2
      acc.set x y Y) acc) intermediate1

/-- Body of the vertical supersampling loop (step 1 of 4:2:0). -/
def verticalStep (intermediate1 input2 input3 : Wrapper) (x y : ℤ)
    (out : Wrapper × Wrapper) : Wrapper × Wrapper :=
  let y2 := y * 2
  let L1 := intermediate1.get x (y2 - 2)
  let L2 := intermediate1.get x (y2 - 1)
  let L3 := intermediate1.get x y2
  let L4 := intermediate1.get x (y2 + 1)
  let L5 := intermediate1.get x (y2 + 2)
  let L6 := intermediate1.get x (y2 + 3)
  let B1 := input2.get x (y - 1)
  let B2 := input2.get x y
  let B3 := input2.get x (y + 1)
  let R1 := input3.get x (y - 1)
  let R2 := input3.get x y
  let R3 := input3.get x (y + 1)
  let s := adaptiveSupersampler L1 L2 L3 L4 L5 L6 B1 B2 B3 R1 R2 R3
  let c := clampTwoCbCr L3 s.1 s.2.2.1 L4 s.2.1 s.2.2.2
  let Bl := c.1
  let Rl := c.2.1
  let Br := c.2.2.1
  let Rr := c.2.2.2
  let intermediate2 := out.1.set x y2 Bl
  let intermediate2 := intermediate2.set x (y2 + 1) Br
  let intermediate3 := out.2.set x y2 Rl
  let intermediate3 := intermediate3.set x (y2 + 1) Rr
  (intermediate2, intermediate3)

/-- The vertical supersampling pass of 4:2:0 step 1. -/
def verticalPass (intermediate1 input2 input3 : Wrapper) (chromaY chromaX : Nat)
    (out : Wrapper × Wrapper) : Wrapper × Wrapper :=
  forLoop chromaY (fun y out =>
    forLoop chromaX (fun x out => verticalStep intermediate1 input2 input3 x y out) out) out

/-- The 4:2:0 branch of `experiment` after the three `Wrapper.from` calls. -/
def pipeline420 (input1 input2 input3 : Wrapper) : Component × Component :=
  let lumaX := input1.xRes
  let lumaY := input1.yRes
  let chromaX := input2.xRes
  let chromaY := input2.yRes
  let intermediate1 := lumaPass input1 lumaY chromaX (Wrapper.new chromaX lumaY (1 / 2) 1)
  let inter := verticalPass intermediate1 input2 input3 chromaY chromaX
    (Wrapper.new chromaX lumaY (1 / 2) 1, Wrapper.new chromaX lumaY (1 / 2) 1)
  let output2 := Wrapper.new lumaX lumaY 1 1
  let output3 := Wrapper.new lumaX lumaY 1 1
  let final := horizontalPass input1 inter.1 inter.2 lumaY chromaX (output2, output3)
  (final.1.toComponent, final.2.toComponent)

/-- Dispatch test for 4:4:4: every scale factor is `1.0`. -/
def is444 (c1 c2 c3 : Component) : Prop :=
  c1.scaleX = 1 ∧ c1.scaleY = 1 ∧ c2.scaleX = 1 ∧ c2.scaleY = 1 ∧
    c3.scaleX = 1 ∧ c3.scaleY = 1

/-- Dispatch test for 4:2:2: chroma has `scaleX = 0.5`, `scaleY = 1.0`. -/
def is422 (c1 c2 c3 : Component) : Prop :=
  c1.scaleX = 1 ∧ c1.scaleY = 1 ∧ c2.scaleX = 1 / 2 ∧ c2.scaleY = 1 ∧
    c3.scaleX = 1 / 2 ∧ c3.scaleY = 1

/-- Dispatch test for 4:2:0: chroma has `scaleX = 0.5`, `scaleY = 0.5`. -/
def is420 (c1 c2 c3 : Component) : Prop :=
  c1.scaleX = 1 ∧ c1.scaleY = 1 ∧ c2.scaleX = 1 / 2 ∧ c2.scaleY = 1 / 2 ∧
    c3.scaleX = 1 / 2 ∧ c3.scaleY = 1 / 2

instance (c1 c2 c3 : Component) : Decidable (is444 c1 c2 c3) := by
  unfold is444; infer_instance

instance (c1 c2 c3 : Component) : Decidable (is422 c1 c2 c3) := by
  unfold is422; infer_instance

instance (c1 c2 c3 : Component) : Decidable (is420 c1 c2 c3) := by
  unfold is420; infer_instance

/-- Runs a branch body on the three planes built by `Wrapper.from`. -/
def withPlanes (c1 c2 c3 : Component)
    (body : Wrapper → Wrapper → Wrapper → Component × Component) :
    Option (Component × Component) :=
  match Wrapper.fromComponent c1, Wrapper.fromComponent c2, Wrapper.fromComponent c3 with
  | some input1, some input2, some input3 => some (body input1 input2 input3)
  | _, _, _ => none

/-- The exported entry point `experiment(component1, component2, component3)`. -/
def experiment (component1 component2 component3 : Component) :
    Option (Component × Component) :=
  if is444 component1 component2 component3 then
    withPlanes component1 component2 component3 pipeline444
  else if is422 component1 component2 component3 then
    withPlanes component1 component2 component3 pipeline422
  else if is420 component1 component2 component3 then
    withPlanes component1 component2 component3 pipeline420
  else
    some (component2, component3)

/-! ## Double-precision evaluation of `clampCbCr`

JavaScript numbers are IEEE 754 binary64 values and every arithmetic operation rounds
its exact result to the nearest one, ties to even.  The definitions below repeat
`clampCbCr` with that rounding after each operation.  Overflow, infinities and `NaN`
are not modelled, and the arguments are taken to be binary64 values already. -/

/-- Nearest integer, ties to the even one. -/
def roundHalfEven (q : ℚ) : ℤ :=
  if q - ⌊q⌋ < 1 / 2 then ⌊q⌋
  else if 1 / 2 < q - ⌊q⌋ then ⌊q⌋ + 1
  else if ⌊q⌋ % 2 = 0 then ⌊q⌋
  else ⌊q⌋ + 1

/-- Nearest binary64 value: a 53-bit significand, least exponent `-1074`. -/
def roundDouble (q : ℚ) : ℚ :=
  if q = 0 then 0
  else (roundHalfEven (q / 2 ^ max (Int.log 2 |q| - 52) (-1074)) : ℚ) *
    2 ^ max (Int.log 2 |q| - 52) (-1074)

/-- Double-precision `a + b`. -/
def dAdd (a b : ℚ) : ℚ := roundDouble (a + b)

/-- Double-precision `a - b`. -/
def dSub (a b : ℚ) : ℚ := roundDouble (a - b)

/-- Double-precision `a * b`. -/
def dMul (a b : ℚ) : ℚ := roundDouble (a * b)

/-- Double-precision `a / b`. -/
def dDiv (a b : ℚ) : ℚ := roundDouble (a / b)

/-- The binary64 value of the literal `1.772`. -/
def kb2D : ℚ := roundDouble (1772 / 1000)

/-- The binary64 value of the literal `1.402`. -/
def kr2D : ℚ := roundDouble (1402 / 1000)

/-- The binary64 value of the literal `0.3441363`. -/
def kb3D : ℚ := roundDouble (3441363 / 10000000)

/-- The binary64 value of the literal `0.71413636`. -/
def kr3D : ℚ := roundDouble (71413636 / 100000000)

/-- Function `clampCbCr(Y, Cb, Cr)` as evaluated in double precision. -/
def clampCbCrD (Y Cb Cr : ℚ) : ℚ × ℚ :=
  let minCb := dSub shift (dDiv Y kb2D)
  let maxCb := dAdd shift (dDiv (dSub 255 Y) kb2D)
  let minCb := max 0 minCb
  let Cb := clamp minCb Cb maxCb
  let minCr := dSub shift (dDiv Y kr2D)
  let maxCr := dAdd shift (dDiv (dSub 255 Y) kr2D)
  let minCr := max 0 minCr
  let maxCr := min maxCr 255
  let Cr := clamp minCr Cr maxCr
  let sumCbCr := dAdd (dMul Cb kb3D) (dMul kr3D Cr)
  let minCbCr := dSub (dAdd Y (dMul (dAdd kb3D kr3D) shift)) 255
  let maxCbCr := dSub (dAdd Y (dMul (dAdd kb3D kr3D) shift)) 0
  if sumCbCr > maxCbCr then
    let cbFree := dSub Cb minCb
    let crFree := dSub Cr minCr
    let x := dDiv (dSub (dSub maxCbCr (dMul kb3D minCb)) (dMul kr3D minCr))
      (dAdd (dMul kb3D cbFree) (dMul kr3D crFree))
    (dAdd minCb (dMul cbFree x), dAdd minCr (dMul crFree x))
  else if sumCbCr < minCbCr then
    let cbFree := dSub maxCb Cb
    let crFree := dSub maxCr Cr
    let x := dDiv (dSub (dSub minCbCr (dMul kb3D Cb)) (dMul kr3D Cr))
      (dAdd (dMul kb3D cbFree) (dMul kr3D crFree))
    (dAdd Cb (dMul cbFree x), dAdd Cr (dMul cbFree x))
  else
    (Cb, Cr)

/-- Double precision: local `minCb` after the `max(0, minCb)` update. -/
def boxMinCbD (Y : ℚ) : ℚ := max 0 (dSub shift (dDiv Y kb2D))

/-- Double precision: local `maxCb`. -/
def boxMaxCbD (Y : ℚ) : ℚ := dAdd shift (dDiv (dSub 255 Y) kb2D)

/-- Double precision: local `minCr` after the `max(0, minCr)` update. -/
def boxMinCrD (Y : ℚ) : ℚ := max 0 (dSub shift (dDiv Y kr2D))

/-- Double precision: local `maxCr` after the `min(maxCr, 255)` update. -/
def boxMaxCrD (Y : ℚ) : ℚ := min (dAdd shift (dDiv (dSub 255 Y) kr2D)) 255

/-- Double precision: `Cb` after the box clamp. -/
def boxCbD (Y Cb : ℚ) : ℚ := clamp (boxMinCbD Y) Cb (boxMaxCbD Y)

/-- Double precision: `Cr` after the box clamp. -/
def boxCrD (Y Cr : ℚ) : ℚ := clamp (boxMinCrD Y) Cr (boxMaxCrD Y)

/-- Double precision: local `sumCbCr`. -/
def sumCbCrD (Y Cb Cr : ℚ) : ℚ := dAdd (dMul (boxCbD Y Cb) kb3D) (dMul kr3D (boxCrD Y Cr))

/-- Double precision: local `minCbCr`. -/
def minCbCrD (Y : ℚ) : ℚ := dSub (dAdd Y (dMul (dAdd kb3D kr3D) shift)) 255

/-- Double precision: local `maxCbCr`. -/
def maxCbCrD (Y : ℚ) : ℚ := dSub (dAdd Y (dMul (dAdd kb3D kr3D) shift)) 0

/-- Double precision, `sumCbCr < minCbCr` branch: the denominator of `x`. -/
def lowDenominatorD (Y Cb Cr : ℚ) : ℚ :=
  dAdd (dMul kb3D (dSub (boxMaxCbD Y) (boxCbD Y Cb)))
    (dMul kr3D (dSub (boxMaxCrD Y) (boxCrD Y Cr)))

/-- Double precision, `sumCbCr < minCbCr` branch: the local factor `x`. -/
def lowFactorD (Y Cb Cr : ℚ) : ℚ :=
  dDiv (dSub (dSub (minCbCrD Y) (dMul kb3D (boxCbD Y Cb))) (dMul kr3D (boxCrD Y Cr)))
    (lowDenominatorD Y Cb Cr)

/-- The blue channel `Y + kb2 * (Cb - shift)` as evaluated in double precision. -/
def blueD (Y Cb : ℚ) : ℚ := dAdd Y (dMul kb2D (dSub Cb shift))

/-! ## Specification vocabulary -/

/-- Two planes agree on everything except the sample buffer. -/
def Wrapper.SameFrame (a b : Wrapper) : Prop :=
  a.xRes = b.xRes ∧ a.yRes = b.yRes ∧ a.scaleX = b.scaleX ∧ a.scaleY = b.scaleY

/-- A component record with at least one row and all rows as long as the first. -/
def Rectangular (c : Component) : Prop :=
  c.lines ≠ [] ∧ ∀ row ∈ c.lines, row.length = (c.lines.headD []).length

instance (c : Component) : Decidable (Rectangular c) := by
  unfold Rectangular; infer_instance

/-- Record `out` has the row count of `c` and every row of `out` has the row length of `c`. -/
def SameSize (out c : Component) : Prop :=
  out.lines.length = c.lines.length ∧
    ∀ row ∈ out.lines, row.length = (c.lines.headD []).length

/-- The buffer holds one cell per pixel, as the constructor establishes. -/
def Wrapper.WellSized (w : Wrapper) : Prop := w.data.length = w.xRes * w.yRes

/-! ## Auxiliary lemmas -/

theorem forLoop_one {σ : Type} (body : Nat → σ → σ) (s : σ) :
    forLoop 1 body s = body 0 s := rfl

theorem forLoop_two {σ : Type} (body : Nat → σ → σ) (s : σ) :
    forLoop 2 body s = body 1 (body 0 s) := rfl

theorem forLoop_succ {σ : Type} (n : Nat) (body : Nat → σ → σ) (s : σ) :
    forLoop (n + 1) body s = body n (forLoop n body s) := by
  simp [forLoop, List.range_succ]

theorem forLoop_invariant {σ : Type} (P : σ → Prop) (n : Nat) (body : Nat → σ → σ) (s : σ)
    (h0 : P s) (hstep : ∀ i t, P t → P (body i t)) : P (forLoop n body s) := by
  induction n with
  | zero => exact h0
  | succ k ih => rw [forLoop_succ]; exact hstep k _ ih

theorem forLoop2_invariant {σ : Type} (P : σ → Prop) (n m : Nat) (body : Nat → Nat → σ → σ)
    (s : σ) (h0 : P s) (hstep : ∀ y x t, P t → P (body y x t)) :
    P (forLoop n (fun y acc => forLoop m (fun x acc => body y x acc) acc) s) :=
  forLoop_invariant P n _ s h0 (fun y t ht =>
    forLoop_invariant P m _ t ht (fun x u hu => hstep y x u hu))

theorem clamp_eq_self {lo v hi : ℚ} (h1 : lo ≤ v) (h2 : v ≤ hi) : clamp lo v hi = v := by
  unfold clamp
  rw [if_neg (not_lt.mpr h1), if_neg (not_lt.mpr h2)]

theorem div_kb2 (Y : ℚ) : Y / kb2 = Y * (1000 / 1772) := by
  unfold kb2; field_simp

theorem div_kr2 (Y : ℚ) : Y / kr2 = Y * (1000 / 1402) := by
  unfold kr2; field_simp

/-! ## `clampCbCr` -/

/-- C1. The low-side G correction of `clampCbCr` adds `cbFree * x` to `Cr` where the
high-side branch uses `crFree`: at `Y = 255`, `Cb = 0`, `Cr = 64` the function returns
`(128, 192)` and the implied red channel is above 255, so box containment fails there. -/
theorem clampCbCr_low_correction_leaves_red_range :
    clampCbCr 255 0 64 = (128, 192) ∧ 255 < red 255 (clampCbCr 255 0 64).2 := by
  have h : clampCbCr 255 0 64 = (128, 192) := by
    norm_num [clampCbCr, clamp, boxMinCb, boxMaxCb, boxMinCr, boxMaxCr, minCbCr, maxCbCr,
      shift, kb2, kr2, kb3, kr3]
  refine ⟨h, ?_⟩
  rw [h]
  norm_num [red, kr2, shift]

/-- C2, as stated, fails: `(Y, Cb, Cr) = (76.9, 84.61, 255.02)` implies R, G, B inside
`[0, 255]`, yet `clampCbCr` lowers `Cr` to the cap `255`. -/
theorem clampCbCr_changes_legal_input :
    (0 ≤ red (769 / 10) (25502 / 100) ∧ red (769 / 10) (25502 / 100) ≤ 255) ∧
    (0 ≤ green (769 / 10) (8461 / 100) (25502 / 100) ∧
      green (769 / 10) (8461 / 100) (25502 / 100) ≤ 255) ∧
    (0 ≤ blue (769 / 10) (8461 / 100) ∧ blue (769 / 10) (8461 / 100) ≤ 255) ∧
    clampCbCr (769 / 10) (8461 / 100) (25502 / 100) ≠ (8461 / 100, 25502 / 100) := by
  have h : clampCbCr (769 / 10) (8461 / 100) (25502 / 100) = (8461 / 100, 255) := by
    norm_num [clampCbCr, clamp, boxMinCb, boxMaxCb, boxMinCr, boxMaxCr, minCbCr, maxCbCr,
      shift, kb2, kr2, kb3, kr3]
  rw [h]
  norm_num [red, green, blue, shift, kb2, kr2, kb3, kr3]

/-- C2, amended: when the implied R, G and B all lie in `[0, 255]` and moreover
`Cr ≤ 255`, `clampCbCr Y Cb Cr` returns exactly `(Cb, Cr)`. -/
theorem clampCbCr_identity_on_legal (Y Cb Cr : ℚ)
    (hR0 : 0 ≤ red Y Cr) (hR1 : red Y Cr ≤ 255)
    (hG0 : 0 ≤ green Y Cb Cr) (hG1 : green Y Cb Cr ≤ 255)
    (hB0 : 0 ≤ blue Y Cb) (hB1 : blue Y Cb ≤ 255)
    (hCr : Cr ≤ 255) :
    clampCbCr Y Cb Cr = (Cb, Cr) := by
  simp only [red, green, blue, kr2, kb2, kb3, kr3, shift] at hR0 hR1 hG0 hG1 hB0 hB1
  have hb : clamp (boxMinCb Y) Cb (boxMaxCb Y) = Cb := by
    apply clamp_eq_self
    · simp only [boxMinCb, div_kb2, shift]
      apply max_le <;> linarith
    · simp only [boxMaxCb, div_kb2, shift]
      linarith
  have hr : clamp (boxMinCr Y) Cr (boxMaxCr Y) = Cr := by
    apply clamp_eq_self
    · simp only [boxMinCr, div_kr2, shift]
      apply max_le <;> linarith
    · simp only [boxMaxCr, div_kr2, shift]
      apply le_min <;> linarith
  unfold clampCbCr
  simp only [hb, hr]
  rw [if_neg, if_neg]
  · simp only [minCbCr, kb3, kr3, shift]; linarith
  · simp only [maxCbCr, kb3, kr3, shift]; linarith

/-- Witness for C2 (amended) at `Y = 100`, `Cb = 200`, `Cr = 200`. -/
theorem clampCbCr_identity_on_legal_witness : clampCbCr 100 200 200 = (200, 200) :=
  clampCbCr_identity_on_legal 100 200 200
    (by norm_num [red, kr2, shift]) (by norm_num [red, kr2, shift])
    (by norm_num [green, kb3, kr3, shift]) (by norm_num [green, kb3, kr3, shift])
    (by norm_num [blue, kb2, shift]) (by norm_num [blue, kb2, shift]) (by norm_num)

/-- C3. Idempotence fails on the low-side correction: `clampCbCr 255 0 64` is
`(128, 192)`, and clamping that pair again at `Y = 255` gives `(128, 128)`. -/
theorem clampCbCr_not_idempotent :
    clampCbCr 255 0 64 = (128, 192) ∧ clampCbCr 255 128 192 = (128, 128) ∧
    clampCbCr 255 (clampCbCr 255 0 64).1 (clampCbCr 255 0 64).2 ≠ clampCbCr 255 0 64 := by
  have h : clampCbCr 255 0 64 = (128, 192) := by
    norm_num [clampCbCr, clamp, boxMinCb, boxMaxCb, boxMinCr, boxMaxCr, minCbCr, maxCbCr,
      shift, kb2, kr2, kb3, kr3]
  have h2 : clampCbCr 255 128 192 = (128, 128) := by
    norm_num [clampCbCr, clamp, boxMinCb, boxMaxCb, boxMinCr, boxMaxCr, minCbCr, maxCbCr,
      shift, kb2, kr2, kb3, kr3]
  refine ⟨h, h2, ?_⟩
  rw [h]
  simp only [h2]
  norm_num

/-! ## 4:4:4 error diffusion -/

theorem fromComponent_single (sx sy v : ℚ) :
    Wrapper.fromComponent ⟨sx, sy, [[v]]⟩ = some ⟨1, 1, sx, sy, [v]⟩ := by
  simp [Wrapper.fromComponent, forLoop_one, Wrapper.new, Wrapper.set]

theorem fromComponent_pair (sx sy u v : ℚ) :
    Wrapper.fromComponent ⟨sx, sy, [[u, v]]⟩ = some ⟨2, 1, sx, sy, [u, v]⟩ := by
  simp [Wrapper.fromComponent, forLoop_one, forLoop_two, Wrapper.new, Wrapper.set]

/-- C4. The 4:4:4 loop computes the Cb residual as `Cb - clampedCr` (the Cr residual is
`Cr - clampedCr`).  On the 2x1 image with luma `[[128, 128]]`, Cb `[[128, 128]]` and
Cr `[[100, 128]]` the first pixel is legal and is returned unchanged, so no Cb error
should be diffused and the claimed Cb output at `(1, 0)` is `128`; the code diffuses
`(128 - 100) / 2 = 14` and returns `142`. -/
theorem experiment_444_diffuses_wrong_residual :
    experiment ⟨1, 1, [[128, 128]]⟩ ⟨1, 1, [[128, 128]]⟩ ⟨1, 1, [[100, 128]]⟩
      = some (⟨1, 1, [[128, 142]]⟩, ⟨1, 1, [[100, 128]]⟩) ∧
    clampCbCr 128 128 100 = (128, 100) ∧
    clampCbCr 128 (128 + (128 - (clampCbCr 128 128 100).1) / 2)
      (128 + (100 - (clampCbCr 128 128 100).2) / 2) = (128, 128) := by
  have hc0 : clampCbCr 128 128 100 = (128, 100) := by
    norm_num [clampCbCr, clamp, boxMinCb, boxMaxCb, boxMinCr, boxMaxCr, minCbCr, maxCbCr,
      shift, kb2, kr2, kb3, kr3]
  have hc1 : clampCbCr 128 142 128 = (142, 128) := by
    norm_num [clampCbCr, clamp, boxMinCb, boxMaxCb, boxMinCr, boxMaxCr, minCbCr, maxCbCr,
      shift, kb2, kr2, kb3, kr3]
  have hc2 : clampCbCr 128 128 128 = (128, 128) := by
    norm_num [clampCbCr, clamp, boxMinCb, boxMaxCb, boxMinCr, boxMaxCr, minCbCr, maxCbCr,
      shift, kb2, kr2, kb3, kr3]
  refine ⟨?_, hc0, ?_⟩
  · simp [experiment, is444, withPlanes, fromComponent_pair, pipeline444, forLoop_one,
      forLoop_two, diffuseStep, Wrapper.get, Wrapper.set, Wrapper.new, hc0]
    norm_num [hc1, Wrapper.toComponent, Wrapper.get, List.range_succ]
  · rw [hc0]
    norm_num [hc2]

/-- C8. On a 1x1 image with all scales `1` the entry point returns the two records
`[[b']]`, `[[r']]` with `(b', r') = clampCbCr Y b r` and scales `1`; for `Y = 100`,
`b = r = 200` both result rows are `[[200]]` and the implied R, G, B lie in `[0, 255]`. -/
theorem experiment_444_single_pixel (Y b r : ℚ) :
    experiment ⟨1, 1, [[Y]]⟩ ⟨1, 1, [[b]]⟩ ⟨1, 1, [[r]]⟩ =
      some (⟨1, 1, [[(clampCbCr Y b r).1]]⟩, ⟨1, 1, [[(clampCbCr Y b r).2]]⟩) ∧
    experiment ⟨1, 1, [[100]]⟩ ⟨1, 1, [[200]]⟩ ⟨1, 1, [[200]]⟩ =
      some (⟨1, 1, [[200]]⟩, ⟨1, 1, [[200]]⟩) ∧
    (0 ≤ red 100 200 ∧ red 100 200 ≤ 255) ∧
    (0 ≤ green 100 200 200 ∧ green 100 200 200 ≤ 255) ∧
    (0 ≤ blue 100 200 ∧ blue 100 200 ≤ 255) := by
  have hgen : ∀ Y b r : ℚ, experiment ⟨1, 1, [[Y]]⟩ ⟨1, 1, [[b]]⟩ ⟨1, 1, [[r]]⟩ =
      some (⟨1, 1, [[(clampCbCr Y b r).1]]⟩, ⟨1, 1, [[(clampCbCr Y b r).2]]⟩) := by
    intro Y b r
    simp [experiment, is444, withPlanes, fromComponent_single, pipeline444, forLoop_one,
      diffuseStep, Wrapper.get, Wrapper.set, Wrapper.new, Wrapper.toComponent,
      List.range_succ]
  have hc : clampCbCr 100 200 200 = (200, 200) := by
    norm_num [clampCbCr, clamp, boxMinCb, boxMaxCb, boxMinCr, boxMaxCr, minCbCr, maxCbCr,
      shift, kb2, kr2, kb3, kr3]
  refine ⟨hgen Y b r, ?_, ?_, ?_, ?_⟩
  · rw [hgen 100 200 200, hc]
  · norm_num [red, kr2, shift]
  · norm_num [green, kb3, kr3, shift]
  · norm_num [blue, kb2, shift]

/-! ## `adaptiveSupersampler` -/

/-- C5, as stated, fails: on a flat luma field the weights `k12` and `k32` are not
`1 / 2`, and with `B1 = 8`, `B2 = B3 = 0` the left estimate `Bl` is not `B2`. -/
theorem adaptiveSupersampler_flat_not_half :
    weightK12 0 0 0 0 ≠ 1 / 2 ∧ weightK32 0 0 0 0 ≠ 1 / 2 ∧
    (adaptiveSupersampler 0 0 0 0 0 0 8 0 0 0 0 0).1 ≠ 0 := by
  norm_num [weightK12, weightK32, weightK13, adaptiveSupersampler]

/-- C5, amended: when all six luma samples equal `L` the weights are
`k12 = k32 = 1 / 4` and `k13 = 1 / 2`, and the result is
`Bl = B2 + (B1 - B3) / 8`, `Br = B2 + (B3 - B1) / 8`, `Rl = R2 + (R1 - R3) / 8`,
`Rr = R2 + (R3 - R1) / 8`. -/
theorem adaptiveSupersampler_flat_field (L B1 B2 B3 R1 R2 R3 : ℚ) :
    weightK12 L L L L = 1 / 4 ∧ weightK32 L L L L = 1 / 4 ∧ weightK13 L L L L = 1 / 2 ∧
    adaptiveSupersampler L L L L L L B1 B2 B3 R1 R2 R3 =
      (B2 + (B1 - B3) / 8, B2 + (B3 - B1) / 8, R2 + (R1 - R3) / 8, R2 + (R3 - R1) / 8) := by
  have h12 : weightK12 L L L L = 1 / 4 := by norm_num [weightK12]
  have h32 : weightK32 L L L L = 1 / 4 := by norm_num [weightK32]
  have h13 : weightK13 L L L L = 1 / 2 := by norm_num [weightK13]
  refine ⟨h12, h32, h13, ?_⟩
  simp only [adaptiveSupersampler, h12, h32, h13, Prod.mk.injEq]
  refine ⟨?_, ?_, ?_, ?_⟩ <;> ring

/-! ## Dispatch -/

/-- C6. When the scale factors match none of the three supported patterns the entry
point returns exactly the pair of its second and third argument. -/
theorem experiment_fallback (c1 c2 c3 : Component) (h444 : ¬ is444 c1 c2 c3)
    (h422 : ¬ is422 c1 c2 c3) (h420 : ¬ is420 c1 c2 c3) :
    experiment c1 c2 c3 = some (c2, c3) := by
  unfold experiment
  rw [if_neg h444, if_neg h422, if_neg h420]

/-- Witness for C6 with chroma scale `1 / 4`. -/
theorem experiment_fallback_witness :
    experiment ⟨1, 1, [[1]]⟩ ⟨1 / 4, 1, [[2]]⟩ ⟨1 / 4, 1, [[3]]⟩
      = some (⟨1 / 4, 1, [[2]]⟩, ⟨1 / 4, 1, [[3]]⟩) :=
  experiment_fallback _ _ _ (by norm_num [is444]) (by norm_num [is422]) (by norm_num [is420])

/-! ## `clampTwoCbCr` -/

/-- C7. In `clampTwoCbCr` the pair handed to the second `clampCbCr` call plus the pair
returned by the first call is `(Cb0 + Cb1, Cr0 + Cr1)`; the function returns the first
result and the second clamp of that residual, in pixel order; and whenever the second
call returns its argument unchanged the outputs keep both sums. -/
theorem clampTwoCbCr_conservation (Y0 Cb0 Cr0 Y1 Cb1 Cr1 : ℚ) :
    ((clampTwoResidual Y0 Cb0 Cr0 Y1 Cb1 Cr1).1 + (clampTwoFirst Y0 Cb0 Cr0 Y1 Cb1 Cr1).1
        = Cb0 + Cb1 ∧
      (clampTwoResidual Y0 Cb0 Cr0 Y1 Cb1 Cr1).2 + (clampTwoFirst Y0 Cb0 Cr0 Y1 Cb1 Cr1).2
        = Cr0 + Cr1) ∧
    (clampTwoCbCr Y0 Cb0 Cr0 Y1 Cb1 Cr1 =
      if errorCbCr Y0 Cb0 Cr0 > errorCbCr Y1 Cb1 Cr1 then
        ((clampTwoFirst Y0 Cb0 Cr0 Y1 Cb1 Cr1).1, (clampTwoFirst Y0 Cb0 Cr0 Y1 Cb1 Cr1).2,
          clampCbCr Y1 (clampTwoResidual Y0 Cb0 Cr0 Y1 Cb1 Cr1).1
            (clampTwoResidual Y0 Cb0 Cr0 Y1 Cb1 Cr1).2)
      else
        ((clampCbCr Y0 (clampTwoResidual Y0 Cb0 Cr0 Y1 Cb1 Cr1).1
            (clampTwoResidual Y0 Cb0 Cr0 Y1 Cb1 Cr1).2).1,
          (clampCbCr Y0 (clampTwoResidual Y0 Cb0 Cr0 Y1 Cb1 Cr1).1
            (clampTwoResidual Y0 Cb0 Cr0 Y1 Cb1 Cr1).2).2,
          clampTwoFirst Y0 Cb0 Cr0 Y1 Cb1 Cr1)) ∧
    (clampCbCr (clampTwoSecondY Y0 Cb0 Cr0 Y1 Cb1 Cr1)
        (clampTwoResidual Y0 Cb0 Cr0 Y1 Cb1 Cr1).1 (clampTwoResidual Y0 Cb0 Cr0 Y1 Cb1 Cr1).2
        = clampTwoResidual Y0 Cb0 Cr0 Y1 Cb1 Cr1 →
      (clampTwoCbCr Y0 Cb0 Cr0 Y1 Cb1 Cr1).1 + (clampTwoCbCr Y0 Cb0 Cr0 Y1 Cb1 Cr1).2.2.1
        = Cb0 + Cb1 ∧
      (clampTwoCbCr Y0 Cb0 Cr0 Y1 Cb1 Cr1).2.1 + (clampTwoCbCr Y0 Cb0 Cr0 Y1 Cb1 Cr1).2.2.2
        = Cr0 + Cr1) := by
  by_cases h : errorCbCr Y0 Cb0 Cr0 > errorCbCr Y1 Cb1 Cr1
  · simp only [clampTwoResidual, clampTwoFirst, clampTwoSecondY, clampTwoCbCr, if_pos h]
    refine ⟨⟨by ring, by ring⟩, trivial, ?_⟩
    intro hfix
    rw [hfix]
    exact ⟨by ring, by ring⟩
  · simp only [clampTwoResidual, clampTwoFirst, clampTwoSecondY, clampTwoCbCr, if_neg h]
    refine ⟨⟨by ring, by ring⟩, trivial, ?_⟩
    intro hfix
    rw [hfix]
    exact ⟨by ring, by ring⟩


/-- Witness for C7: pixel 0 has `Cr = 300` and is clamped first, pixel 1 absorbs the rest. -/
theorem clampTwoCbCr_conservation_witness :
    (clampTwoCbCr (574 / 5) 128 300 (574 / 5) 128 128).1 +
        (clampTwoCbCr (574 / 5) 128 300 (574 / 5) 128 128).2.2.1 = 128 + 128 ∧
      (clampTwoCbCr (574 / 5) 128 300 (574 / 5) 128 128).2.1 +
        (clampTwoCbCr (574 / 5) 128 300 (574 / 5) 128 128).2.2.2 = 300 + 128 :=
  (clampTwoCbCr_conservation (574 / 5) 128 300 (574 / 5) 128 128).2.2 (by
    norm_num [clampTwoSecondY, clampTwoResidual, errorCbCr, clampCbCr, clamp, boxMinCb, boxMaxCb,
      boxMinCr, boxMaxCr, minCbCr, maxCbCr, shift, kb2, kr2, kb3, kr3, abs_div, Nat.abs_ofNat])

/-! ## Output shape -/

theorem Wrapper.sameFrame_refl (a : Wrapper) : a.SameFrame a := ⟨rfl, rfl, rfl, rfl⟩

theorem Wrapper.sameFrame_set (a b : Wrapper) (x y : ℤ) (v : ℚ) (h : a.SameFrame b) :
    (a.set x y v).SameFrame b := by
  unfold Wrapper.set
  split
  · exact h
  · exact h

theorem fromComponent_frame (c : Component) (h : Rectangular c) :
    ∃ w, Wrapper.fromComponent c = some w ∧ w.xRes = (c.lines.headD []).length ∧
      w.yRes = c.lines.length := by
  obtain ⟨hne, hrows⟩ := h
  cases hl : c.lines with
  | nil => exact absurd hl hne
  | cons row0 rest =>
    rw [hl] at hrows
    have hall : (row0 :: rest).all (fun row => decide (row0.length ≤ row.length)) = true := by
      rw [List.all_eq_true]
      intro row hrow
      have := hrows row hrow
      simp only [List.headD_cons] at this
      simp [this]
    have hf : (Wrapper.new row0.length (row0 :: rest).length c.scaleX c.scaleY).SameFrame
        (Wrapper.new row0.length (row0 :: rest).length c.scaleX c.scaleY) :=
      Wrapper.sameFrame_refl _
    refine ⟨forLoop (row0 :: rest).length (fun y blank =>
        forLoop row0.length (fun x blank =>
          blank.set x y (((row0 :: rest).getD y []).getD x 0)) blank)
        (Wrapper.new row0.length (row0 :: rest).length c.scaleX c.scaleY), ?_, ?_, ?_⟩
    · simp only [Wrapper.fromComponent, hl]
      rw [if_pos hall]
    · exact (forLoop2_invariant (fun (w : Wrapper) => w.SameFrame (Wrapper.new row0.length
        (row0 :: rest).length c.scaleX c.scaleY)) _ _ _ _ hf
          (fun y x u hu => Wrapper.sameFrame_set _ _ _ _ _ hu)).1
    · exact (forLoop2_invariant (fun (w : Wrapper) => w.SameFrame (Wrapper.new row0.length
        (row0 :: rest).length c.scaleX c.scaleY)) _ _ _ _ hf
          (fun y x u hu => Wrapper.sameFrame_set _ _ _ _ _ hu)).2.1

theorem toComponent_shape (w : Wrapper) (c : Component) (xRes yRes : Nat)
    (hf : w.SameFrame (Wrapper.new xRes yRes 1 1))
    (hx : xRes = (c.lines.headD []).length) (hy : yRes = c.lines.length) :
    SameSize w.toComponent c ∧ w.toComponent.scaleX = 1 ∧ w.toComponent.scaleY = 1 := by
  obtain ⟨h1, h2, h3, h4⟩ := hf
  simp only [Wrapper.new] at h1 h2 h3 h4
  refine ⟨⟨?_, ?_⟩, h3, h4⟩
  · simp [Wrapper.toComponent, h2, hy]
  · intro row hrow
    simp only [Wrapper.toComponent, List.mem_map] at hrow
    obtain ⟨y, -, rfl⟩ := hrow
    simp [h1, hx]

theorem horizontalPass_frame (input1 input2 input3 : Wrapper) (rows chromaX : Nat)
    (out : Wrapper × Wrapper) (b : Wrapper)
    (h2 : out.1.SameFrame b) (h3 : out.2.SameFrame b) :
    (horizontalPass input1 input2 input3 rows chromaX out).1.SameFrame b ∧
      (horizontalPass input1 input2 input3 rows chromaX out).2.SameFrame b := by
  unfold horizontalPass
  refine forLoop2_invariant (fun (o : Wrapper × Wrapper) => o.1.SameFrame b ∧ o.2.SameFrame b)
    _ _ _ _ ⟨h2, h3⟩ (fun y x u hu => ?_)
  simp only [horizontalStep]
  exact ⟨Wrapper.sameFrame_set _ _ _ _ _ (Wrapper.sameFrame_set _ _ _ _ _ hu.1),
    Wrapper.sameFrame_set _ _ _ _ _ (Wrapper.sameFrame_set _ _ _ _ _ hu.2)⟩

theorem diffusion_frame (input1 : Wrapper) (n m : Nat) (s : Diffusion) (b : Wrapper)
    (h2 : s.output2.SameFrame b) (h3 : s.output3.SameFrame b) :
    (forLoop n (fun y s => forLoop m (fun x s => diffuseStep input1 x y s) s) s).output2.SameFrame b ∧
    (forLoop n (fun y s => forLoop m (fun x s => diffuseStep input1 x y s) s) s).output3.SameFrame b := by
  refine forLoop2_invariant (fun (o : Diffusion) => o.output2.SameFrame b ∧ o.output3.SameFrame b)
    _ _ _ _ ⟨h2, h3⟩ (fun y x u hu => ?_)
  simp only [diffuseStep]
  exact ⟨Wrapper.sameFrame_set _ _ _ _ _ hu.1, Wrapper.sameFrame_set _ _ _ _ _ hu.2⟩

theorem pipeline444_shape (input1 input2 input3 : Wrapper) (c : Component)
    (hx : input2.xRes = (c.lines.headD []).length) (hy : input2.yRes = c.lines.length) :
    (SameSize (pipeline444 input1 input2 input3).1 c ∧
      (pipeline444 input1 input2 input3).1.scaleX = 1 ∧
      (pipeline444 input1 input2 input3).1.scaleY = 1) ∧
    (SameSize (pipeline444 input1 input2 input3).2 c ∧
      (pipeline444 input1 input2 input3).2.scaleX = 1 ∧
      (pipeline444 input1 input2 input3).2.scaleY = 1) := by
  have h := diffusion_frame input1 input2.yRes input2.xRes
    { input2 := input2, input3 := input3,
      output2 := Wrapper.new input2.xRes input2.yRes 1 1,
      output3 := Wrapper.new input2.xRes input2.yRes 1 1 }
    (Wrapper.new input2.xRes input2.yRes 1 1)
    (Wrapper.sameFrame_refl _) (Wrapper.sameFrame_refl _)
  exact ⟨toComponent_shape _ c _ _ h.1 hx hy, toComponent_shape _ c _ _ h.2 hx hy⟩

theorem pipeline422_shape (input1 input2 input3 : Wrapper) (c : Component)
    (hx : input1.xRes = (c.lines.headD []).length) (hy : input1.yRes = c.lines.length) :
    (SameSize (pipeline422 input1 input2 input3).1 c ∧
      (pipeline422 input1 input2 input3).1.scaleX = 1 ∧
      (pipeline422 input1 input2 input3).1.scaleY = 1) ∧
    (SameSize (pipeline422 input1 input2 input3).2 c ∧
      (pipeline422 input1 input2 input3).2.scaleX = 1 ∧
      (pipeline422 input1 input2 input3).2.scaleY = 1) := by
  have h := horizontalPass_frame input1 input2 input3 input2.yRes input2.xRes
    (Wrapper.new input1.xRes input1.yRes 1 1, Wrapper.new input1.xRes input1.yRes 1 1)
    (Wrapper.new input1.xRes input1.yRes 1 1)
    (Wrapper.sameFrame_refl _) (Wrapper.sameFrame_refl _)
  exact ⟨toComponent_shape _ c _ _ h.1 hx hy, toComponent_shape _ c _ _ h.2 hx hy⟩

theorem pipeline420_shape (input1 input2 input3 : Wrapper) (c : Component)
    (hx : input1.xRes = (c.lines.headD []).length) (hy : input1.yRes = c.lines.length) :
    (SameSize (pipeline420 input1 input2 input3).1 c ∧
      (pipeline420 input1 input2 input3).1.scaleX = 1 ∧
      (pipeline420 input1 input2 input3).1.scaleY = 1) ∧
    (SameSize (pipeline420 input1 input2 input3).2 c ∧
      (pipeline420 input1 input2 input3).2.scaleX = 1 ∧
      (pipeline420 input1 input2 input3).2.scaleY = 1) := by
  have h := horizontalPass_frame input1
    (verticalPass (lumaPass input1 input1.yRes input2.xRes
        (Wrapper.new input2.xRes input1.yRes (1 / 2) 1)) input2 input3 input2.yRes input2.xRes
      (Wrapper.new input2.xRes input1.yRes (1 / 2) 1,
        Wrapper.new input2.xRes input1.yRes (1 / 2) 1)).1
    (verticalPass (lumaPass input1 input1.yRes input2.xRes
        (Wrapper.new input2.xRes input1.yRes (1 / 2) 1)) input2 input3 input2.yRes input2.xRes
      (Wrapper.new input2.xRes input1.yRes (1 / 2) 1,
        Wrapper.new input2.xRes input1.yRes (1 / 2) 1)).2
    input1.yRes input2.xRes
    (Wrapper.new input1.xRes input1.yRes 1 1, Wrapper.new input1.xRes input1.yRes 1 1)
    (Wrapper.new input1.xRes input1.yRes 1 1)
    (Wrapper.sameFrame_refl _) (Wrapper.sameFrame_refl _)
  exact ⟨toComponent_shape _ c _ _ h.1 hx hy, toComponent_shape _ c _ _ h.2 hx hy⟩

theorem withPlanes_some (c1 c2 c3 : Component)
    (body : Wrapper → Wrapper → Wrapper → Component × Component)
    (w1 w2 w3 : Wrapper) (h1 : Wrapper.fromComponent c1 = some w1)
    (h2 : Wrapper.fromComponent c2 = some w2) (h3 : Wrapper.fromComponent c3 = some w3) :
    withPlanes c1 c2 c3 body = some (body w1 w2 w3) := by
  simp only [withPlanes, h1, h2, h3]

/-- C9. For rectangular non-empty inputs the entry point returns two records with
`scaleX = scaleY = 1`: in the 4:4:4 branch each has the row count and row length of the
Cb input, in the 4:2:2 and 4:2:0 branches each has the row count and row length of the
luma input; so in 4:2:2 with luma width twice the chroma width and equal heights the
width doubles and the height is unchanged. -/
theorem experiment_output_shape (c1 c2 c3 : Component)
    (h1 : Rectangular c1) (h2 : Rectangular c2) (h3 : Rectangular c3) :
    (is444 c1 c2 c3 → ∃ o2 o3, experiment c1 c2 c3 = some (o2, o3) ∧
      (SameSize o2 c2 ∧ o2.scaleX = 1 ∧ o2.scaleY = 1) ∧
      (SameSize o3 c2 ∧ o3.scaleX = 1 ∧ o3.scaleY = 1)) ∧
    (is422 c1 c2 c3 ∨ is420 c1 c2 c3 → ∃ o2 o3, experiment c1 c2 c3 = some (o2, o3) ∧
      (SameSize o2 c1 ∧ o2.scaleX = 1 ∧ o2.scaleY = 1) ∧
      (SameSize o3 c1 ∧ o3.scaleX = 1 ∧ o3.scaleY = 1)) ∧
    (is422 c1 c2 c3 → (c1.lines.headD []).length = 2 * (c2.lines.headD []).length →
      c1.lines.length = c2.lines.length →
      ∃ o2 o3, experiment c1 c2 c3 = some (o2, o3) ∧
        (o2.lines.length = c2.lines.length ∧
          ∀ row ∈ o2.lines, row.length = 2 * (c2.lines.headD []).length) ∧
        (o3.lines.length = c2.lines.length ∧
          ∀ row ∈ o3.lines, row.length = 2 * (c2.lines.headD []).length)) := by
  obtain ⟨w1, hw1, hx1, hy1⟩ := fromComponent_frame c1 h1
  obtain ⟨w2, hw2, hx2, hy2⟩ := fromComponent_frame c2 h2
  obtain ⟨w3, hw3, -, -⟩ := fromComponent_frame c3 h3
  have hsub : is422 c1 c2 c3 ∨ is420 c1 c2 c3 → ∃ o2 o3,
      experiment c1 c2 c3 = some (o2, o3) ∧
      (SameSize o2 c1 ∧ o2.scaleX = 1 ∧ o2.scaleY = 1) ∧
      (SameSize o3 c1 ∧ o3.scaleX = 1 ∧ o3.scaleY = 1) := by
    intro h
    rcases h with h | h
    · have hn : ¬ is444 c1 c2 c3 := by
        intro h4
        have := h4.2.2.1
        rw [h.2.2.1] at this
        norm_num at this
      refine ⟨(pipeline422 w1 w2 w3).1, (pipeline422 w1 w2 w3).2, ?_,
        pipeline422_shape w1 w2 w3 c1 hx1 hy1⟩
      unfold experiment
      rw [if_neg hn, if_pos h, withPlanes_some c1 c2 c3 _ w1 w2 w3 hw1 hw2 hw3]
    · have hn : ¬ is444 c1 c2 c3 := by
        intro h4
        have := h4.2.2.1
        rw [h.2.2.1] at this
        norm_num at this
      have hn2 : ¬ is422 c1 c2 c3 := by
        intro h4
        have := h4.2.2.2.1
        rw [h.2.2.2.1] at this
        norm_num at this
      refine ⟨(pipeline420 w1 w2 w3).1, (pipeline420 w1 w2 w3).2, ?_,
        pipeline420_shape w1 w2 w3 c1 hx1 hy1⟩
      unfold experiment
      rw [if_neg hn, if_neg hn2, if_pos h, withPlanes_some c1 c2 c3 _ w1 w2 w3 hw1 hw2 hw3]
  refine ⟨?_, hsub, ?_⟩
  · intro h
    refine ⟨(pipeline444 w1 w2 w3).1, (pipeline444 w1 w2 w3).2, ?_,
      pipeline444_shape w1 w2 w3 c2 hx2 hy2⟩
    unfold experiment
    rw [if_pos h, withPlanes_some c1 c2 c3 _ w1 w2 w3 hw1 hw2 hw3]
  · intro h hwidth hheight
    obtain ⟨o2, o3, hres, ⟨⟨hl2, hr2⟩, -, -⟩, ⟨⟨hl3, hr3⟩, -, -⟩⟩ := hsub (Or.inl h)
    refine ⟨o2, o3, hres, ⟨hl2.trans hheight, fun row hrow => ?_⟩,
      ⟨hl3.trans hheight, fun row hrow => ?_⟩⟩
    · rw [hr2 row hrow, hwidth]
    · rw [hr3 row hrow, hwidth]

/-- Witness for C9 on a 4:2:2 input with a 2x1 luma plane and 1x1 chroma planes. -/
theorem experiment_output_shape_witness :
    ∃ o2 o3, experiment ⟨1, 1, [[1, 2]]⟩ ⟨1 / 2, 1, [[3]]⟩ ⟨1 / 2, 1, [[4]]⟩ = some (o2, o3) ∧
      (SameSize o2 ⟨1, 1, [[1, 2]]⟩ ∧ o2.scaleX = 1 ∧ o2.scaleY = 1) ∧
      (SameSize o3 ⟨1, 1, [[1, 2]]⟩ ∧ o3.scaleX = 1 ∧ o3.scaleY = 1) :=
  (experiment_output_shape ⟨1, 1, [[1, 2]]⟩ ⟨1 / 2, 1, [[3]]⟩ ⟨1 / 2, 1, [[4]]⟩
    (by simp [Rectangular]) (by simp [Rectangular]) (by simp [Rectangular])).2.1
    (Or.inl (by norm_num [is422]))

/-! ## `Wrapper` accessors -/

theorem cellIndex_eq (xRes a b : ℕ) : ((xRes : ℤ) * (b : ℤ) + (a : ℤ)).toNat = xRes * b + a := by
  have : ((xRes : ℤ) * (b : ℤ) + (a : ℤ)) = ((xRes * b + a : ℕ) : ℤ) := by push_cast; ring
  rw [this, Int.toNat_natCast]

theorem cellIndex_lt {xRes yRes a b : ℕ} (ha : a < xRes) (hb : b < yRes) :
    xRes * b + a < xRes * yRes := by
  calc xRes * b + a < xRes * b + xRes := by omega
    _ = xRes * (b + 1) := by ring
    _ ≤ xRes * yRes := Nat.mul_le_mul_left _ hb

theorem cellIndex_inj {xRes a b a' b' : ℕ} (ha : a < xRes) (ha' : a' < xRes)
    (h : xRes * b + a = xRes * b' + a') : a = a' ∧ b = b' := by
  have hpos : 0 < xRes := by omega
  have hm := congrArg (· % xRes) h
  have hd := congrArg (· / xRes) h
  simp only [Nat.mul_add_mod, Nat.mod_eq_of_lt ha, Nat.mod_eq_of_lt ha'] at hm
  simp only [Nat.mul_add_div hpos, Nat.div_eq_of_lt ha, Nat.div_eq_of_lt ha', Nat.add_zero] at hd
  exact ⟨hm, hd⟩

/-- C10. On a plane whose buffer has `xRes * yRes` cells: outside the bounds `get`
returns `0` and `set` returns the plane unchanged; inside the bounds `get` after `set`
returns the stored value and every other in-bounds cell keeps its value; `set` never
changes the resolution or the buffer length. -/
theorem Wrapper.get_set_bounds_policy (p : Wrapper) (hp : p.data.length = p.xRes * p.yRes) (x y : ℤ) (v : ℚ) :
    ((x < 0 ∨ (p.xRes : ℤ) ≤ x ∨ y < 0 ∨ (p.yRes : ℤ) ≤ y) →
      p.get x y = 0 ∧ p.set x y v = p) ∧
    ((0 ≤ x ∧ x < p.xRes ∧ 0 ≤ y ∧ y < p.yRes) →
      (p.set x y v).get x y = v ∧
      (∀ x' y' : ℤ, 0 ≤ x' ∧ x' < p.xRes ∧ 0 ≤ y' ∧ y' < p.yRes → (x', y') ≠ (x, y) →
        (p.set x y v).get x' y' = p.get x' y')) ∧
    (p.set x y v).xRes = p.xRes ∧ (p.set x y v).yRes = p.yRes ∧
    (p.set x y v).data.length = p.xRes * p.yRes := by
  refine ⟨?_, ?_, ?_, ?_, ?_⟩
  · intro hout
    have hn : ¬ (0 ≤ x ∧ x < p.xRes ∧ 0 ≤ y ∧ y < p.yRes) := by omega
    simp only [Wrapper.get, Wrapper.set, if_neg hn, and_self]
  · intro hin
    obtain ⟨hx0, hx1, hy0, hy1⟩ := hin
    lift x to ℕ using hx0
    lift y to ℕ using hy0
    have hx : x < p.xRes := by exact_mod_cast hx1
    have hy : y < p.yRes := by exact_mod_cast hy1
    have hin : (0 : ℤ) ≤ x ∧ (x : ℤ) < p.xRes ∧ (0 : ℤ) ≤ y ∧ (y : ℤ) < p.yRes := by omega
    have hidx : p.xRes * y + x < p.data.length := hp ▸ cellIndex_lt hx hy
    constructor
    · simp only [Wrapper.get, Wrapper.set, if_pos hin, cellIndex_eq]
      simp [List.getD_eq_getElem?_getD, hidx]
    · intro x' y' hin' hne
      obtain ⟨hx0', hx1', hy0', hy1'⟩ := hin'
      lift x' to ℕ using hx0'
      lift y' to ℕ using hy0'
      have hx' : x' < p.xRes := by exact_mod_cast hx1'
      have hin' : (0 : ℤ) ≤ x' ∧ (x' : ℤ) < p.xRes ∧ (0 : ℤ) ≤ y' ∧ (y' : ℤ) < p.yRes := by omega
      have hidx' : p.xRes * y + x ≠ p.xRes * y' + x' := by
        intro h
        obtain ⟨h1, h2⟩ := cellIndex_inj hx hx' h
        exact hne (by rw [h1, h2])
      simp only [Wrapper.get, Wrapper.set, if_pos hin, if_pos hin', cellIndex_eq]
      simp [List.getD_eq_getElem?_getD, List.getElem?_set_ne hidx']
  · unfold Wrapper.set; split <;> rfl
  · unfold Wrapper.set; split <;> rfl
  · unfold Wrapper.set; split
    · simp [hp]
    · exact hp

/-- Witness for C10 on the 2x1 plane holding `[5, 7]`. -/
theorem Wrapper.get_set_bounds_policy_witness :
    ((⟨2, 1, 1, 1, [5, 7]⟩ : Wrapper).get 2 0 = 0 ∧
      (⟨2, 1, 1, 1, [5, 7]⟩ : Wrapper).set 2 0 9 = ⟨2, 1, 1, 1, [5, 7]⟩) ∧
    ((⟨2, 1, 1, 1, [5, 7]⟩ : Wrapper).set 0 0 9).get 0 0 = 9 :=
  ⟨(Wrapper.get_set_bounds_policy ⟨2, 1, 1, 1, [5, 7]⟩ rfl 2 0 9).1 (by norm_num),
    ((Wrapper.get_set_bounds_policy ⟨2, 1, 1, 1, [5, 7]⟩ rfl 0 0 9).2.1 (by norm_num)).1⟩

/-! ## Gamut math, continued -/

theorem clampCbCr_branches (Y Cb Cr : ℚ) :
    clampCbCr Y Cb Cr =
      if sumCbCr Y Cb Cr > maxCbCr Y then
        (boxMinCb Y + (boxCb Y Cb - boxMinCb Y) * highFactor Y Cb Cr,
          boxMinCr Y + (boxCr Y Cr - boxMinCr Y) * highFactor Y Cb Cr)
      else if sumCbCr Y Cb Cr < minCbCr Y then
        (boxCb Y Cb + (boxMaxCb Y - boxCb Y Cb) * lowFactor Y Cb Cr,
          boxCr Y Cr + (boxMaxCb Y - boxCb Y Cb) * lowFactor Y Cb Cr)
      else
        (boxCb Y Cb, boxCr Y Cr) := rfl

theorem boxMinCb_le_shift {Y : ℚ} (hY : 0 ≤ Y) : boxMinCb Y ≤ 128 := by
  simp only [boxMinCb, div_kb2, shift]
  apply max_le <;> linarith

theorem boxMinCr_le_shift {Y : ℚ} (hY : 0 ≤ Y) : boxMinCr Y ≤ 128 := by
  simp only [boxMinCr, div_kr2, shift]
  apply max_le <;> linarith

theorem shift_le_boxMaxCb {Y : ℚ} (hY : Y ≤ 255) : 128 ≤ boxMaxCb Y := by
  simp only [boxMaxCb, div_kb2, shift]
  linarith

theorem shift_le_boxMaxCr {Y : ℚ} (hY : Y ≤ 255) : 128 ≤ boxMaxCr Y := by
  simp only [boxMaxCr, div_kr2, shift]
  apply le_min <;> linarith

theorem clamp_bounds {lo v hi : ℚ} (h : lo ≤ hi) : lo ≤ clamp lo v hi ∧ clamp lo v hi ≤ hi := by
  unfold clamp
  split
  · exact ⟨le_refl _, h⟩
  · split
    · exact ⟨h, le_refl _⟩
    · constructor <;> linarith

theorem boxCb_bounds {Y : ℚ} (hY0 : 0 ≤ Y) (hY1 : Y ≤ 255) (Cb : ℚ) :
    boxMinCb Y ≤ boxCb Y Cb ∧ boxCb Y Cb ≤ boxMaxCb Y :=
  clamp_bounds (le_trans (boxMinCb_le_shift hY0) (shift_le_boxMaxCb hY1))

theorem boxCr_bounds {Y : ℚ} (hY0 : 0 ≤ Y) (hY1 : Y ≤ 255) (Cr : ℚ) :
    boxMinCr Y ≤ boxCr Y Cr ∧ boxCr Y Cr ≤ boxMaxCr Y :=
  clamp_bounds (le_trans (boxMinCr_le_shift hY0) (shift_le_boxMaxCr hY1))

theorem highFactor_bounds {Y : ℚ} (hY0 : 0 ≤ Y) (Cb Cr : ℚ)
    (h : sumCbCr Y Cb Cr > maxCbCr Y) :
    0 < highDenominator Y Cb Cr ∧ 0 ≤ highFactor Y Cb Cr ∧ highFactor Y Cb Cr ≤ 1 := by
  have hb := boxMinCb_le_shift hY0
  have hr := boxMinCr_le_shift hY0
  have hnum : 0 ≤ maxCbCr Y - kb3 * boxMinCb Y - kr3 * boxMinCr Y := by
    simp only [maxCbCr, kb3, kr3, shift]; linarith
  have hlt : maxCbCr Y - kb3 * boxMinCb Y - kr3 * boxMinCr Y < highDenominator Y Cb Cr := by
    simp only [sumCbCr] at h
    simp only [highDenominator]; linarith
  have hpos : 0 < highDenominator Y Cb Cr := lt_of_le_of_lt hnum hlt
  refine ⟨hpos, div_nonneg hnum hpos.le, ?_⟩
  unfold highFactor
  rw [div_le_one hpos]
  exact hlt.le

theorem lowFactor_bounds {Y : ℚ} (hY1 : Y ≤ 255) (Cb Cr : ℚ)
    (h : sumCbCr Y Cb Cr < minCbCr Y) :
    0 < lowDenominator Y Cb Cr ∧ 0 ≤ lowFactor Y Cb Cr := by
  have hb := shift_le_boxMaxCb hY1
  have hr := shift_le_boxMaxCr hY1
  have hnum : 0 < minCbCr Y - kb3 * boxCb Y Cb - kr3 * boxCr Y Cr := by
    simp only [sumCbCr] at h
    linarith
  have hle : minCbCr Y - kb3 * boxCb Y Cb - kr3 * boxCr Y Cr ≤ lowDenominator Y Cb Cr := by
    simp only [lowDenominator, minCbCr, kb3, kr3, shift]; linarith
  have hpos : 0 < lowDenominator Y Cb Cr := lt_of_lt_of_le hnum hle
  exact ⟨hpos, div_nonneg hnum.le hpos.le⟩

/-- In exact arithmetic the low-side quotient is at most `1`.  The double-precision
quotient `lowFactorD` can exceed `1` in the last bit. -/
theorem lowFactor_exact_le_one {Y : ℚ} (hY1 : Y ≤ 255) (Cb Cr : ℚ)
    (h : sumCbCr Y Cb Cr < minCbCr Y) : lowFactor Y Cb Cr ≤ 1 := by
  have hb := shift_le_boxMaxCb hY1
  have hr := shift_le_boxMaxCr hY1
  have hnum : 0 < minCbCr Y - kb3 * boxCb Y Cb - kr3 * boxCr Y Cr := by
    simp only [sumCbCr] at h
    linarith
  have hle : minCbCr Y - kb3 * boxCb Y Cb - kr3 * boxCr Y Cr ≤ lowDenominator Y Cb Cr := by
    simp only [lowDenominator, minCbCr, kb3, kr3, shift]; linarith
  have hpos : 0 < lowDenominator Y Cb Cr := lt_of_lt_of_le hnum hle
  unfold lowFactor
  rw [div_le_one hpos]
  exact hle

theorem abs_sub_clamp_eq_zero_iff (v : ℚ) : |v - clamp 0 v 255| = 0 ↔ 0 ≤ v ∧ v ≤ 255 := by
  unfold clamp
  rw [abs_eq_zero]
  split
  · constructor
    · intro h; constructor <;> linarith
    · intro h; linarith [h.1]
  · split
    · constructor
      · intro h; constructor <;> linarith
      · intro h; linarith [h.2]
    · constructor
      · intro _; constructor <;> linarith
      · intro _; ring

/-- C18. `errorCbCr` is never negative, and it is zero exactly when the implied R, G
and B all lie in `[0, 255]`. -/
theorem errorCbCr_zero_iff_legal (Y Cb Cr : ℚ) :
    0 ≤ errorCbCr Y Cb Cr ∧
    (errorCbCr Y Cb Cr = 0 ↔
      (0 ≤ red Y Cr ∧ red Y Cr ≤ 255) ∧ (0 ≤ green Y Cb Cr ∧ green Y Cb Cr ≤ 255) ∧
        (0 ≤ blue Y Cb ∧ blue Y Cb ≤ 255)) := by
  have hr := abs_nonneg (red Y Cr - clamp 0 (red Y Cr) 255)
  have hg := abs_nonneg (green Y Cb Cr - clamp 0 (green Y Cb Cr) 255)
  have hb := abs_nonneg (blue Y Cb - clamp 0 (blue Y Cb) 255)
  have he : errorCbCr Y Cb Cr = |red Y Cr - clamp 0 (red Y Cr) 255| +
      |green Y Cb Cr - clamp 0 (green Y Cb Cr) 255| +
      |blue Y Cb - clamp 0 (blue Y Cb) 255| := rfl
  rw [he]
  refine ⟨by linarith, ?_⟩
  rw [← abs_sub_clamp_eq_zero_iff, ← abs_sub_clamp_eq_zero_iff (green Y Cb Cr),
    ← abs_sub_clamp_eq_zero_iff (blue Y Cb)]
  constructor
  · intro h
    refine ⟨?_, ?_, ?_⟩ <;> linarith
  · rintro ⟨h1, h2, h3⟩
    rw [h1, h2, h3]; norm_num

/-- C16. The two sub-pixel estimates of `adaptiveSupersampler` average to the centre
sample: `Bl + Br = 2 * B2` and `Rl + Rr = 2 * R2`, for all inputs. -/
theorem adaptiveSupersampler_mean (L1 L2 L3 L4 L5 L6 B1 B2 B3 R1 R2 R3 : ℚ) :
    (adaptiveSupersampler L1 L2 L3 L4 L5 L6 B1 B2 B3 R1 R2 R3).1 +
        (adaptiveSupersampler L1 L2 L3 L4 L5 L6 B1 B2 B3 R1 R2 R3).2.1 = 2 * B2 ∧
    (adaptiveSupersampler L1 L2 L3 L4 L5 L6 B1 B2 B3 R1 R2 R3).2.2.1 +
        (adaptiveSupersampler L1 L2 L3 L4 L5 L6 B1 B2 B3 R1 R2 R3).2.2.2 = 2 * R2 := by
  simp only [adaptiveSupersampler]
  constructor <;> ring

/-- C14. `clampTwoCbCr` clamps pixel 0 first when its distortion is strictly greater and
hands the residual to pixel 1; otherwise, also when both distortions are equal, it clamps
pixel 1 first and hands the residual to pixel 0.  The result is ordered
`(Cb0', Cr0', Cb1', Cr1')`. -/
theorem clampTwoCbCr_order (Y0 Cb0 Cr0 Y1 Cb1 Cr1 : ℚ) :
    (errorCbCr Y0 Cb0 Cr0 > errorCbCr Y1 Cb1 Cr1 →
      clampTwoCbCr Y0 Cb0 Cr0 Y1 Cb1 Cr1 =
        ((clampCbCr Y0 Cb0 Cr0).1, (clampCbCr Y0 Cb0 Cr0).2,
          clampCbCr Y1 (Cb0 + Cb1 - (clampCbCr Y0 Cb0 Cr0).1)
            (Cr0 + Cr1 - (clampCbCr Y0 Cb0 Cr0).2))) ∧
    (¬ errorCbCr Y0 Cb0 Cr0 > errorCbCr Y1 Cb1 Cr1 →
      clampTwoCbCr Y0 Cb0 Cr0 Y1 Cb1 Cr1 =
        ((clampCbCr Y0 (Cb0 + Cb1 - (clampCbCr Y1 Cb1 Cr1).1)
            (Cr0 + Cr1 - (clampCbCr Y1 Cb1 Cr1).2)).1,
          (clampCbCr Y0 (Cb0 + Cb1 - (clampCbCr Y1 Cb1 Cr1).1)
            (Cr0 + Cr1 - (clampCbCr Y1 Cb1 Cr1).2)).2,
          clampCbCr Y1 Cb1 Cr1)) ∧
    (errorCbCr Y0 Cb0 Cr0 = errorCbCr Y1 Cb1 Cr1 →
      clampTwoCbCr Y0 Cb0 Cr0 Y1 Cb1 Cr1 =
        ((clampCbCr Y0 (Cb0 + Cb1 - (clampCbCr Y1 Cb1 Cr1).1)
            (Cr0 + Cr1 - (clampCbCr Y1 Cb1 Cr1).2)).1,
          (clampCbCr Y0 (Cb0 + Cb1 - (clampCbCr Y1 Cb1 Cr1).1)
            (Cr0 + Cr1 - (clampCbCr Y1 Cb1 Cr1).2)).2,
          clampCbCr Y1 Cb1 Cr1)) := by
  have hle : ¬ errorCbCr Y0 Cb0 Cr0 > errorCbCr Y1 Cb1 Cr1 →
      clampTwoCbCr Y0 Cb0 Cr0 Y1 Cb1 Cr1 =
        ((clampCbCr Y0 (Cb0 + Cb1 - (clampCbCr Y1 Cb1 Cr1).1)
            (Cr0 + Cr1 - (clampCbCr Y1 Cb1 Cr1).2)).1,
          (clampCbCr Y0 (Cb0 + Cb1 - (clampCbCr Y1 Cb1 Cr1).1)
            (Cr0 + Cr1 - (clampCbCr Y1 Cb1 Cr1).2)).2,
          clampCbCr Y1 Cb1 Cr1) := by
    intro h
    simp only [clampTwoCbCr, if_neg h]
  refine ⟨?_, hle, ?_⟩
  · intro h
    simp only [clampTwoCbCr, if_pos h]
  · intro h
    exact hle (by rw [h]; exact lt_irrefl _)

/-- C12. For `0 ≤ Y ≤ 255`, when the box-clamped pair violates the G constraint on the
high side there is one factor `x` in `[0, 1]` with `Cb' = minCb + x * (Cb_c - minCb)`,
`Cr' = minCr + x * (Cr_c - minCr)`, and the output has
`kb3 * Cb' + kr3 * Cr' = Y + (kb3 + kr3) * 128`, that is `G = 0`. -/
theorem clampCbCr_high_correction (Y Cb Cr : ℚ) (hY0 : 0 ≤ Y) (_hY1 : Y ≤ 255)
    (h : kb3 * boxCb Y Cb + kr3 * boxCr Y Cr > Y + (kb3 + kr3) * 128) :
    ∃ x : ℚ, 0 ≤ x ∧ x ≤ 1 ∧
      (clampCbCr Y Cb Cr).1 = boxMinCb Y + x * (boxCb Y Cb - boxMinCb Y) ∧
      (clampCbCr Y Cb Cr).2 = boxMinCr Y + x * (boxCr Y Cr - boxMinCr Y) ∧
      kb3 * (clampCbCr Y Cb Cr).1 + kr3 * (clampCbCr Y Cb Cr).2 = Y + (kb3 + kr3) * 128 ∧
      green Y (clampCbCr Y Cb Cr).1 (clampCbCr Y Cb Cr).2 = 0 := by
  have hs : sumCbCr Y Cb Cr > maxCbCr Y := by
    simp only [sumCbCr, maxCbCr, shift]; linarith
  obtain ⟨hpos, hx0, hx1⟩ := highFactor_bounds hY0 Cb Cr hs
  have hout : clampCbCr Y Cb Cr =
      (boxMinCb Y + (boxCb Y Cb - boxMinCb Y) * highFactor Y Cb Cr,
        boxMinCr Y + (boxCr Y Cr - boxMinCr Y) * highFactor Y Cb Cr) := by
    rw [clampCbCr_branches, if_pos hs]
  have hmul : highFactor Y Cb Cr * highDenominator Y Cb Cr =
      maxCbCr Y - kb3 * boxMinCb Y - kr3 * boxMinCr Y := by
    unfold highFactor
    exact div_mul_cancel₀ _ hpos.ne'
  have hsum : kb3 * (clampCbCr Y Cb Cr).1 + kr3 * (clampCbCr Y Cb Cr).2 =
      Y + (kb3 + kr3) * 128 := by
    rw [hout]
    simp only [highDenominator] at hmul
    simp only [maxCbCr, shift] at hmul
    linear_combination hmul
  refine ⟨highFactor Y Cb Cr, hx0, hx1, ?_, ?_, hsum, ?_⟩
  · rw [hout]; ring
  · rw [hout]; ring
  · simp only [green, shift]
    linear_combination -hsum

/-- C17, amended. For `0 ≤ Y ≤ 255`, in either G-correction branch of `clampCbCr` the
denominator `kb3 * cbFree + kr3 * crFree` is strictly positive, so no division by zero
occurs, and the factor `x` is non-negative; in the high-side branch also `x ≤ 1`.  No
upper bound on `x` is stated for the low-side branch.  The last conjunct ties the named
locals to the value `clampCbCr` returns. -/
theorem clampCbCr_factor_well_defined (Y Cb Cr : ℚ) (hY0 : 0 ≤ Y) (hY1 : Y ≤ 255) :
    (sumCbCr Y Cb Cr > maxCbCr Y →
      0 < highDenominator Y Cb Cr ∧ 0 ≤ highFactor Y Cb Cr ∧ highFactor Y Cb Cr ≤ 1) ∧
    (sumCbCr Y Cb Cr < minCbCr Y →
      0 < lowDenominator Y Cb Cr ∧ 0 ≤ lowFactor Y Cb Cr) ∧
    clampCbCr Y Cb Cr =
      (if sumCbCr Y Cb Cr > maxCbCr Y then
        (boxMinCb Y + (boxCb Y Cb - boxMinCb Y) * highFactor Y Cb Cr,
          boxMinCr Y + (boxCr Y Cr - boxMinCr Y) * highFactor Y Cb Cr)
      else if sumCbCr Y Cb Cr < minCbCr Y then
        (boxCb Y Cb + (boxMaxCb Y - boxCb Y Cb) * lowFactor Y Cb Cr,
          boxCr Y Cr + (boxMaxCb Y - boxCb Y Cb) * lowFactor Y Cb Cr)
      else
        (boxCb Y Cb, boxCr Y Cr)) :=
  ⟨highFactor_bounds hY0 Cb Cr, lowFactor_bounds hY1 Cb Cr, clampCbCr_branches Y Cb Cr⟩

/-- Witness for C17: a high-side correction at `Y = 0` and a low-side one at `Y = 255`. -/
theorem clampCbCr_factor_well_defined_witness :
    (0 < highDenominator 0 200 200 ∧ 0 ≤ highFactor 0 200 200 ∧ highFactor 0 200 200 ≤ 1) ∧
    (0 < lowDenominator 255 0 64 ∧ 0 ≤ lowFactor 255 0 64) :=
  ⟨(clampCbCr_factor_well_defined 0 200 200 (by norm_num) (by norm_num)).1 (by
      norm_num [sumCbCr, boxCb, boxCr, clamp, boxMinCb, boxMaxCb, boxMinCr, boxMaxCr, maxCbCr,
        shift, kb2, kr2, kb3, kr3]),
    (clampCbCr_factor_well_defined 255 0 64 (by norm_num) (by norm_num)).2.1 (by
      norm_num [sumCbCr, boxCb, boxCr, clamp, boxMinCb, boxMaxCb, boxMinCr, boxMaxCr, minCbCr,
        shift, kb2, kr2, kb3, kr3])⟩

/-- C19, amended. For `0 ≤ Y ≤ 255` the first output of `clampCbCr` is at least
`max 0 (128 - Y / kb2)` on every path, and at most `128 + (255 - Y) / kb2` on the paths
without correction and with the high-side correction.  Nothing is stated about the upper
bound on the low-side path or about the blue channel. -/
theorem clampCbCr_cb_box (Y Cb Cr : ℚ) (hY0 : 0 ≤ Y) (hY1 : Y ≤ 255) :
    max 0 (128 - Y / kb2) ≤ (clampCbCr Y Cb Cr).1 ∧
    (¬ sumCbCr Y Cb Cr < minCbCr Y → (clampCbCr Y Cb Cr).1 ≤ 128 + (255 - Y) / kb2) := by
  obtain ⟨hlo, hhi⟩ := boxCb_bounds hY0 hY1 Cb
  have hmin : boxMinCb Y = max 0 (128 - Y / kb2) := rfl
  have hmax : boxMaxCb Y = 128 + (255 - Y) / kb2 := rfl
  rw [← hmin, ← hmax, clampCbCr_branches]
  split
  · rename_i hs
    obtain ⟨-, hx0, hx1⟩ := highFactor_bounds hY0 Cb Cr hs
    have hfree : 0 ≤ boxCb Y Cb - boxMinCb Y := by linarith
    have h1 := mul_nonneg hfree hx0
    have h2 := mul_le_of_le_one_right hfree hx1
    refine ⟨?_, fun _ => ?_⟩ <;> simp only <;> linarith
  · split
    · rename_i hs
      obtain ⟨-, hx0⟩ := lowFactor_bounds hY1 Cb Cr hs
      have hfree : 0 ≤ boxMaxCb Y - boxCb Y Cb := by linarith
      have h1 := mul_nonneg hfree hx0
      refine ⟨?_, fun hnot => absurd hs hnot⟩
      simp only
      linarith
    · exact ⟨hlo, fun _ => hhi⟩

/-- Witness for C19: the high-side correction path at `Y = 0`, `Cb = Cr = 200`. -/
theorem clampCbCr_cb_box_witness :
    max 0 (128 - (0 : ℚ) / kb2) ≤ (clampCbCr 0 200 200).1 ∧
    (clampCbCr 0 200 200).1 ≤ 128 + (255 - 0) / kb2 :=
  ⟨(clampCbCr_cb_box 0 200 200 (by norm_num) (by norm_num)).1,
    (clampCbCr_cb_box 0 200 200 (by norm_num) (by norm_num)).2 (by
      norm_num [sumCbCr, boxCb, boxCr, clamp, boxMinCb, boxMaxCb, boxMinCr, boxMaxCr, minCbCr,
        shift, kb2, kr2, kb3, kr3])⟩

/-- C13. At `Y = 255`, `Cb = 0`, `Cr = 64` the low-side branch is taken with box-clamped
pair `(0, 64)` and maxima `(128, 128)`; the code returns `(128, 192)`, which no single
factor `x` produces from each value's own distance to its maximum, and the weighted sum
misses the boundary `Y + (kb3 + kr3) * 128 - 255`. -/
theorem clampCbCr_low_correction_uses_cbFree :
    sumCbCr 255 0 64 < minCbCr 255 ∧
    clampCbCr 255 0 64 = (128, 192) ∧
    (boxCb 255 0 = 0 ∧ boxCr 255 64 = 64 ∧ boxMaxCb 255 = 128 ∧ boxMaxCr 255 = 128) ∧
    (¬ ∃ x : ℚ, (clampCbCr 255 0 64).1 = boxCb 255 0 + x * (boxMaxCb 255 - boxCb 255 0) ∧
      (clampCbCr 255 0 64).2 = boxCr 255 64 + x * (boxMaxCr 255 - boxCr 255 64)) ∧
    kb3 * (clampCbCr 255 0 64).1 + kr3 * (clampCbCr 255 0 64).2 ≠
      255 + (kb3 + kr3) * 128 - 255 := by
  have h : clampCbCr 255 0 64 = (128, 192) := by
    norm_num [clampCbCr, clamp, boxMinCb, boxMaxCb, boxMinCr, boxMaxCr, minCbCr, maxCbCr,
      shift, kb2, kr2, kb3, kr3]
  have hb : boxCb 255 0 = 0 := by
    norm_num [boxCb, clamp, boxMinCb, boxMaxCb, shift, kb2]
  have hr : boxCr 255 64 = 64 := by
    norm_num [boxCr, clamp, boxMinCr, boxMaxCr, shift, kr2]
  have hmb : boxMaxCb 255 = 128 := by norm_num [boxMaxCb, shift, kb2]
  have hmr : boxMaxCr 255 = 128 := by norm_num [boxMaxCr, shift, kr2]
  refine ⟨?_, h, ⟨hb, hr, hmb, hmr⟩, ?_, ?_⟩
  · simp only [sumCbCr, hb, hr]
    norm_num [minCbCr, shift, kb3, kr3]
  · rw [h, hb, hr, hmb, hmr]
    rintro ⟨x, h1, h2⟩
    simp only at h1 h2
    linarith
  · rw [h]
    norm_num [kb3, kr3]

/-- Witness for C12 at `Y = 0`, `Cb = Cr = 200`. -/
theorem clampCbCr_high_correction_witness :
    ∃ x : ℚ, 0 ≤ x ∧ x ≤ 1 ∧
      (clampCbCr 0 200 200).1 = boxMinCb 0 + x * (boxCb 0 200 - boxMinCb 0) ∧
      (clampCbCr 0 200 200).2 = boxMinCr 0 + x * (boxCr 0 200 - boxMinCr 0) ∧
      kb3 * (clampCbCr 0 200 200).1 + kr3 * (clampCbCr 0 200 200).2 = 0 + (kb3 + kr3) * 128 ∧
      green 0 (clampCbCr 0 200 200).1 (clampCbCr 0 200 200).2 = 0 :=
  clampCbCr_high_correction 0 200 200 (by norm_num) (by norm_num) (by
    norm_num [boxCb, boxCr, clamp, boxMinCb, boxMaxCb, boxMinCr, boxMaxCr, shift, kb2, kr2,
      kb3, kr3])

/-- Witness for C14: two legal pixels have equal distortion, so pixel 1 is clamped first. -/
theorem clampTwoCbCr_order_witness :
    clampTwoCbCr 128 128 100 128 128 128 =
      ((clampCbCr 128 (128 + 128 - (clampCbCr 128 128 128).1)
          (100 + 128 - (clampCbCr 128 128 128).2)).1,
        (clampCbCr 128 (128 + 128 - (clampCbCr 128 128 128).1)
          (100 + 128 - (clampCbCr 128 128 128).2)).2,
        clampCbCr 128 128 128) :=
  (clampTwoCbCr_order 128 128 100 128 128 128).2.2 (by
    norm_num [errorCbCr, clamp, shift, kb2, kr2, kb3, kr3, abs_div, Nat.abs_ofNat])

/-! ## Cells of a plane -/

theorem Wrapper.wellSized_new (xRes yRes : Nat) (sx sy : ℚ) :
    (Wrapper.new xRes yRes sx sy).WellSized := by
  simp [Wrapper.WellSized, Wrapper.new]

theorem Wrapper.wellSized_set (w : Wrapper) (x y : ℤ) (v : ℚ) (h : w.WellSized) :
    (w.set x y v).WellSized := by
  unfold Wrapper.WellSized at *
  unfold Wrapper.set
  split
  · simpa using h
  · exact h

theorem Wrapper.get_set_same (w : Wrapper) (hw : w.WellSized) (x y : ℕ) (v : ℚ)
    (hx : x < w.xRes) (hy : y < w.yRes) : (w.set x y v).get x y = v := by
  have hin : (0 : ℤ) ≤ x ∧ (x : ℤ) < w.xRes ∧ (0 : ℤ) ≤ y ∧ (y : ℤ) < w.yRes := by omega
  have hidx : w.xRes * y + x < w.data.length := by
    rw [hw]; exact cellIndex_lt hx hy
  simp only [Wrapper.get, Wrapper.set, if_pos hin, cellIndex_eq]
  simp [List.getD_eq_getElem?_getD, hidx]

theorem Wrapper.get_set_other (w : Wrapper) (x y x' y' : ℤ) (v : ℚ)
    (hne : (x', y') ≠ (x, y)) : (w.set x y v).get x' y' = w.get x' y' := by
  by_cases hin : 0 ≤ x ∧ x < w.xRes ∧ 0 ≤ y ∧ y < w.yRes
  · by_cases hin' : 0 ≤ x' ∧ x' < w.xRes ∧ 0 ≤ y' ∧ y' < w.yRes
    · obtain ⟨hx0, hx1, hy0, hy1⟩ := hin
      obtain ⟨hx0', hx1', hy0', hy1'⟩ := hin'
      lift x to ℕ using hx0
      lift y to ℕ using hy0
      lift x' to ℕ using hx0'
      lift y' to ℕ using hy0'
      have hx : x < w.xRes := by exact_mod_cast hx1
      have hx' : x' < w.xRes := by exact_mod_cast hx1'
      have hin : (0 : ℤ) ≤ x ∧ (x : ℤ) < w.xRes ∧ (0 : ℤ) ≤ y ∧ (y : ℤ) < w.yRes := by omega
      have hin' : (0 : ℤ) ≤ x' ∧ (x' : ℤ) < w.xRes ∧ (0 : ℤ) ≤ y' ∧ (y' : ℤ) < w.yRes := by
        omega
      have hidx : w.xRes * y + x ≠ w.xRes * y' + x' := by
        intro h
        obtain ⟨h1, h2⟩ := cellIndex_inj hx hx' h
        exact hne (by rw [h1, h2])
      simp only [Wrapper.get, Wrapper.set, if_pos hin, if_pos hin', cellIndex_eq]
      simp [List.getD_eq_getElem?_getD, List.getElem?_set_ne hidx]
    · simp only [Wrapper.get, Wrapper.set, if_pos hin, if_neg hin']
  · simp only [Wrapper.set, if_neg hin]

/-! ## Loops that write a cell once -/

theorem forLoop_miss {σ α : Type} (Inv : σ → Prop) (obs : σ → α) (n : Nat)
    (body : Nat → σ → σ) (s : σ) (h0 : Inv s)
    (hinv : ∀ i t, Inv t → Inv (body i t))
    (hmiss : ∀ i t, Inv t → obs (body i t) = obs t) :
    obs (forLoop n body s) = obs s :=
  (forLoop_invariant (fun (t : σ) => Inv t ∧ obs t = obs s) n body s ⟨h0, rfl⟩
    (fun i t ht => ⟨hinv i t ht.1, (hmiss i t ht.1).trans ht.2⟩)).2

theorem forLoop_hit {σ α : Type} (Inv : σ → Prop) (obs : σ → α) (n : Nat)
    (body : Nat → σ → σ) (s : σ) (i0 : Nat) (v : α) (hi : i0 < n) (h0 : Inv s)
    (hinv : ∀ i t, Inv t → Inv (body i t))
    (hhit : ∀ t, Inv t → obs (body i0 t) = v)
    (hmiss : ∀ i t, Inv t → i ≠ i0 → obs (body i t) = obs t) :
    obs (forLoop n body s) = v := by
  induction n with
  | zero => omega
  | succ k ih =>
    rw [forLoop_succ]
    have hk : Inv (forLoop k body s) := forLoop_invariant Inv k body s h0 hinv
    by_cases hik : i0 = k
    · subst hik
      exact hhit _ hk
    · rw [hmiss k _ hk (fun h => hik h.symm)]
      exact ih (by omega)

theorem forLoop2_hit {σ α : Type} (Inv : σ → Prop) (obs : σ → α) (n m : Nat)
    (body : Nat → Nat → σ → σ) (s : σ) (y0 x0 : Nat) (v : α) (hy : y0 < n) (hx : x0 < m)
    (h0 : Inv s) (hinv : ∀ y x t, Inv t → Inv (body y x t))
    (hhit : ∀ t, Inv t → obs (body y0 x0 t) = v)
    (hmiss : ∀ y x t, Inv t → (y, x) ≠ (y0, x0) → obs (body y x t) = obs t) :
    obs (forLoop n (fun y acc => forLoop m (fun x acc => body y x acc) acc) s) = v := by
  refine forLoop_hit Inv obs n _ s y0 v hy h0 ?_ ?_ ?_
  · intro y t ht
    exact forLoop_invariant Inv m _ t ht (fun x u hu => hinv y x u hu)
  · intro t ht
    refine forLoop_hit Inv obs m _ t x0 v hx ht (fun x u hu => hinv y0 x u hu) hhit ?_
    intro x u hu hne
    exact hmiss y0 x u hu (fun h => hne (by injection h))
  · intro y t ht hne
    refine forLoop_miss Inv obs m _ t ht (fun x u hu => hinv y x u hu) ?_
    intro x u hu
    exact hmiss y x u hu (fun h => hne (by injection h))

theorem fill_get (w0 : Wrapper) (hw : w0.WellSized) (f : Nat → Nat → ℚ) (n m : Nat)
    (hn : n ≤ w0.yRes) (hm : m ≤ w0.xRes) :
    (forLoop n (fun y acc => forLoop m (fun x acc =>
        acc.set x y (f x y)) acc) w0).SameFrame w0 ∧
    (forLoop n (fun y acc => forLoop m (fun x acc =>
        acc.set x y (f x y)) acc) w0).WellSized ∧
    ∀ x y : Nat, x < m → y < n →
      (forLoop n (fun y acc => forLoop m (fun x acc =>
        acc.set x y (f x y)) acc) w0).get x y = f x y := by
  have hinv : ∀ (y x : Nat) (t : Wrapper), (t.SameFrame w0 ∧ t.WellSized) →
      ((t.set x y (f x y)).SameFrame w0 ∧ (t.set x y (f x y)).WellSized) :=
    fun y x t ht => ⟨Wrapper.sameFrame_set _ _ _ _ _ ht.1, Wrapper.wellSized_set _ _ _ _ ht.2⟩
  have hfinal := forLoop2_invariant (fun (t : Wrapper) => t.SameFrame w0 ∧ t.WellSized) n m
    (fun y x acc => acc.set x y (f x y)) w0 ⟨Wrapper.sameFrame_refl _, hw⟩ hinv
  refine ⟨hfinal.1, hfinal.2, ?_⟩
  intro x0 y0 hx hy
  refine forLoop2_hit (fun (t : Wrapper) => t.SameFrame w0 ∧ t.WellSized)
    (fun (t : Wrapper) => t.get x0 y0) n m (fun y x acc => acc.set x y (f x y)) w0 y0 x0
    (f x0 y0) hy hx ⟨Wrapper.sameFrame_refl _, hw⟩ hinv ?_ ?_
  · intro t ht
    exact Wrapper.get_set_same t ht.2 x0 y0 _ (by rw [ht.1.1]; omega) (by rw [ht.1.2.1]; omega)
  · intro y x t _ hne
    refine Wrapper.get_set_other t x y x0 y0 _ ?_
    intro h
    apply hne
    have h1 : (x0 : ℤ) = x := congrArg Prod.fst h
    have h2 : (y0 : ℤ) = y := congrArg Prod.snd h
    have h1' : x0 = x := by exact_mod_cast h1
    have h2' : y0 = y := by exact_mod_cast h2
    rw [h1', h2']

/-! ## Round trip through a plane -/

theorem fromComponent_get (c : Component) (h : Rectangular c) :
    ∃ w, Wrapper.fromComponent c = some w ∧
      w.SameFrame (Wrapper.new (c.lines.headD []).length c.lines.length c.scaleX c.scaleY) ∧
      w.WellSized ∧
      ∀ x y : Nat, x < (c.lines.headD []).length → y < c.lines.length →
        w.get x y = (c.lines.getD y []).getD x 0 := by
  obtain ⟨hne, hrows⟩ := h
  cases hl : c.lines with
  | nil => exact absurd hl hne
  | cons row0 rest =>
    rw [hl] at hrows
    have hall : (row0 :: rest).all (fun row => decide (row0.length ≤ row.length)) = true := by
      rw [List.all_eq_true]
      intro row hrow
      have := hrows row hrow
      simp only [List.headD_cons] at this
      simp [this]
    have hfill := fill_get (Wrapper.new row0.length (row0 :: rest).length c.scaleX c.scaleY)
      (Wrapper.wellSized_new _ _ _ _) (fun x y => ((row0 :: rest).getD y []).getD x 0)
      (row0 :: rest).length row0.length (le_refl _) (le_refl _)
    refine ⟨_, ?_, hfill.1, hfill.2.1, hfill.2.2⟩
    simp only [Wrapper.fromComponent, hl]
    rw [if_pos hall]

theorem rows_eq_of_get (lines : List (List ℚ)) (xRes : Nat) (g : Nat → Nat → ℚ)
    (hrows : ∀ row ∈ lines, row.length = xRes)
    (hg : ∀ x y : Nat, x < xRes → y < lines.length → g x y = (lines.getD y []).getD x 0) :
    (List.range lines.length).map (fun (y : Nat) =>
      (List.range xRes).map (fun (x : Nat) => g x y)) = lines := by
  apply List.ext_getElem
  · simp
  · intro y h1 h2
    have hrow : lines[y].length = xRes := hrows _ (List.getElem_mem _)
    simp only [List.getElem_map, List.getElem_range]
    apply List.ext_getElem
    · simp [hrow]
    · intro x h3 h4
      simp only [List.getElem_map, List.getElem_range]
      rw [hg x y (by simpa using h3) h2]
      simp [List.getD_eq_getElem?_getD, h2, h4]

/-- C11. For a component record with at least one row and all rows of equal length,
`Wrapper.from` succeeds and `toComponent` of the plane has the same `scaleX`, `scaleY`
and the same `lines`, element for element. -/
theorem fromComponent_toComponent (r : Component) (h : Rectangular r) :
    ∃ w, Wrapper.fromComponent r = some w ∧
      w.toComponent.scaleX = r.scaleX ∧ w.toComponent.scaleY = r.scaleY ∧
      w.toComponent.lines = r.lines := by
  obtain ⟨w, hw, hframe, -, hget⟩ := fromComponent_get r h
  obtain ⟨hx, hy, hsx, hsy⟩ := hframe
  simp only [Wrapper.new] at hx hy hsx hsy
  refine ⟨w, hw, hsx, hsy, ?_⟩
  simp only [Wrapper.toComponent, hx, hy]
  exact rows_eq_of_get r.lines _ (fun x y => w.get x y) h.2 hget

/-- Witness for C11 on a 2x2 record. -/
theorem fromComponent_toComponent_witness :
    ∃ w, Wrapper.fromComponent ⟨1 / 2, 1, [[1, 2], [3, 4]]⟩ = some w ∧
      w.toComponent.scaleX = 1 / 2 ∧ w.toComponent.scaleY = 1 ∧
      w.toComponent.lines = [[1, 2], [3, 4]] :=
  fromComponent_toComponent ⟨1 / 2, 1, [[1, 2], [3, 4]]⟩ (by simp [Rectangular])

/-! ## 4:2:0 stage 1 -/

theorem lumaPass_eq_fill (input1 : Wrapper) (lumaY chromaX : Nat) (w0 : Wrapper) :
    lumaPass input1 lumaY chromaX w0 =
      forLoop lumaY (fun y acc => forLoop chromaX (fun x acc =>
        acc.set x y ((fun (x y : Nat) =>
          (input1.get ((x : ℤ) * 2) y + input1.get ((x : ℤ) * 2 + 1) y) / 2) x y)) acc) w0 :=
  rfl

/-- C15, as stated, fails: for the 2x2 luma plane `[[0, 4], [8, 12]]` and chroma width
`1` the intermediate luma plane has 2 rows, not 1, and its sample at `(0, 0)` is
`(0 + 4) / 2 = 2`, not the vertical average `(0 + 8) / 2 = 4`. -/
theorem lumaPass_not_vertical_average :
    lumaPass ⟨2, 2, 1, 1, [0, 4, 8, 12]⟩ 2 1 (Wrapper.new 1 2 (1 / 2) 1)
      = ⟨1, 2, 1 / 2, 1, [2, 10]⟩ ∧
    (lumaPass ⟨2, 2, 1, 1, [0, 4, 8, 12]⟩ 2 1 (Wrapper.new 1 2 (1 / 2) 1)).yRes ≠ 2 / 2 ∧
    (lumaPass ⟨2, 2, 1, 1, [0, 4, 8, 12]⟩ 2 1 (Wrapper.new 1 2 (1 / 2) 1)).get 0 0 ≠
      ((⟨2, 2, 1, 1, [0, 4, 8, 12]⟩ : Wrapper).get 0 0 +
        (⟨2, 2, 1, 1, [0, 4, 8, 12]⟩ : Wrapper).get 0 1) / 2 := by
  have h : lumaPass ⟨2, 2, 1, 1, [0, 4, 8, 12]⟩ 2 1 (Wrapper.new 1 2 (1 / 2) 1)
      = ⟨1, 2, 1 / 2, 1, [2, 10]⟩ := by
    simp [lumaPass, forLoop_one, forLoop_two, Wrapper.new, Wrapper.get, Wrapper.set]
    norm_num
  rw [h]
  refine ⟨rfl, ?_, ?_⟩
  · norm_num
  · have h2 : Int.toNat 2 = 2 := rfl
    norm_num [Wrapper.get, h2]

/-- C15, amended: the intermediate luma plane of 4:2:0 stage 1 has the chroma width and
the full luma height, and its sample at `(x, y)` is the average of the two horizontally
adjacent luma samples at columns `2x` and `2x + 1` of row `y`. -/
theorem lumaPass_horizontal_average (input1 : Wrapper) (lumaY chromaX : Nat) :
    (lumaPass input1 lumaY chromaX (Wrapper.new chromaX lumaY (1 / 2) 1)).xRes = chromaX ∧
    (lumaPass input1 lumaY chromaX (Wrapper.new chromaX lumaY (1 / 2) 1)).yRes = lumaY ∧
    ∀ x y : Nat, x < chromaX → y < lumaY →
      (lumaPass input1 lumaY chromaX (Wrapper.new chromaX lumaY (1 / 2) 1)).get x y =
        (input1.get (2 * (x : ℤ)) y + input1.get (2 * (x : ℤ) + 1) y) / 2 := by
  have h := fill_get (Wrapper.new chromaX lumaY (1 / 2) 1) (Wrapper.wellSized_new _ _ _ _)
    (fun (x y : Nat) => (input1.get ((x : ℤ) * 2) y + input1.get ((x : ℤ) * 2 + 1) y) / 2)
    lumaY chromaX (le_refl _) (le_refl _)
  rw [lumaPass_eq_fill]
  refine ⟨h.1.1, h.1.2.1, ?_⟩
  intro x y hx hy
  rw [h.2.2 x y hx hy]
  beta_reduce
  rw [mul_comm (x : ℤ) 2]

/-! ## 4:2:2 on a constant image -/

theorem horizontalStep_eq (input1 input2 input3 : Wrapper) (x y : ℤ)
    (out : Wrapper × Wrapper) :
    horizontalStep input1 input2 input3 x y out =
      ((out.1.set (x * 2) y (horizontalValues input1 input2 input3 x y).1).set (x * 2 + 1) y
          (horizontalValues input1 input2 input3 x y).2.2.1,
        (out.2.set (x * 2) y (horizontalValues input1 input2 input3 x y).2.1).set (x * 2 + 1) y
          (horizontalValues input1 input2 input3 x y).2.2.2) := rfl

theorem Wrapper.get_set_set (w : Wrapper) (hw : w.WellSized) (a y : ℕ) (u v : ℚ)
    (ha : a + 1 < w.xRes) (hy : y < w.yRes) :
    ((w.set a y u).set ((a : ℤ) + 1) y v).get a y = u ∧
    ((w.set a y u).set ((a : ℤ) + 1) y v).get ((a : ℤ) + 1) y = v := by
  constructor
  · rw [Wrapper.get_set_other _ _ _ _ _ _ (by
      intro h
      have h1 : (a : ℤ) = (a : ℤ) + 1 := congrArg Prod.fst h
      omega)]
    exact Wrapper.get_set_same w hw a y u (by omega) hy
  · have hw2 := Wrapper.wellSized_set w a y u hw
    have hf := Wrapper.sameFrame_set w w a y u (Wrapper.sameFrame_refl w)
    have := Wrapper.get_set_same (w.set a y u) hw2 (a + 1) y v (by rw [hf.1]; exact ha)
      (by rw [hf.2.1]; exact hy)
    simpa using this

theorem Wrapper.get_set_set_other (w : Wrapper) (a y a0 y0 : ℕ) (u v : ℚ) (k : ℤ)
    (hk : k = 0 ∨ k = 1) (hne : (y, a) ≠ (y0, a0)) :
    ((w.set ((a : ℤ) * 2) y u).set ((a : ℤ) * 2 + 1) y v).get ((a0 : ℤ) * 2 + k) y0 =
      w.get ((a0 : ℤ) * 2 + k) y0 := by
  have hcell : ∀ j : ℤ, (j = 0 ∨ j = 1) →
      (((a0 : ℤ) * 2 + k, (y0 : ℤ)) : ℤ × ℤ) ≠ ((a : ℤ) * 2 + j, (y : ℤ)) := by
    intro j hj h
    have h1 : (a0 : ℤ) * 2 + k = (a : ℤ) * 2 + j := congrArg Prod.fst h
    have h2 : (y0 : ℤ) = (y : ℤ) := congrArg Prod.snd h
    apply hne
    have h3 : a = a0 := by omega
    have h4 : y = y0 := by omega
    rw [h3, h4]
  rw [Wrapper.get_set_other _ _ _ _ _ _ (hcell 1 (Or.inr rfl))]
  have := Wrapper.get_set_other w ((a : ℤ) * 2) y ((a0 : ℤ) * 2 + k) y0 u
    (by simpa using hcell 0 (Or.inl rfl))
  exact this


theorem horizontalPass_get (input1 input2 input3 : Wrapper) (rows chromaX : Nat)
    (W0 : Wrapper) (hW : W0.WellSized) (x0 y0 : Nat) (hx : x0 < chromaX) (hy : y0 < rows)
    (hin : x0 * 2 + 1 < W0.xRes) (hyin : y0 < W0.yRes) :
    ((horizontalPass input1 input2 input3 rows chromaX (W0, W0)).1.get ((x0 : ℤ) * 2) y0,
      (horizontalPass input1 input2 input3 rows chromaX (W0, W0)).1.get ((x0 : ℤ) * 2 + 1) y0,
      (horizontalPass input1 input2 input3 rows chromaX (W0, W0)).2.get ((x0 : ℤ) * 2) y0,
      (horizontalPass input1 input2 input3 rows chromaX (W0, W0)).2.get ((x0 : ℤ) * 2 + 1) y0)
    = ((horizontalValues input1 input2 input3 x0 y0).1,
      (horizontalValues input1 input2 input3 x0 y0).2.2.1,
      (horizontalValues input1 input2 input3 x0 y0).2.1,
      (horizontalValues input1 input2 input3 x0 y0).2.2.2) := by
  unfold horizontalPass
  refine forLoop2_hit
    (fun (o : Wrapper × Wrapper) =>
      (o.1.SameFrame W0 ∧ o.1.WellSized) ∧ (o.2.SameFrame W0 ∧ o.2.WellSized))
    (fun (o : Wrapper × Wrapper) =>
      (o.1.get ((x0 : ℤ) * 2) y0, o.1.get ((x0 : ℤ) * 2 + 1) y0,
        o.2.get ((x0 : ℤ) * 2) y0, o.2.get ((x0 : ℤ) * 2 + 1) y0))
    rows chromaX (fun y x out => horizontalStep input1 input2 input3 x y out) (W0, W0)
    y0 x0 _ hy hx ⟨⟨Wrapper.sameFrame_refl _, hW⟩, ⟨Wrapper.sameFrame_refl _, hW⟩⟩ ?_ ?_ ?_
  · intro y x t ht
    beta_reduce
    rw [horizontalStep_eq]
    exact ⟨⟨Wrapper.sameFrame_set _ _ _ _ _ (Wrapper.sameFrame_set _ _ _ _ _ ht.1.1),
        Wrapper.wellSized_set _ _ _ _ (Wrapper.wellSized_set _ _ _ _ ht.1.2)⟩,
      ⟨Wrapper.sameFrame_set _ _ _ _ _ (Wrapper.sameFrame_set _ _ _ _ _ ht.2.1),
        Wrapper.wellSized_set _ _ _ _ (Wrapper.wellSized_set _ _ _ _ ht.2.2)⟩⟩
  · intro t ht
    beta_reduce
    rw [horizontalStep_eq]
    have h1 := Wrapper.get_set_set t.1 ht.1.2 (x0 * 2) y0
      (horizontalValues input1 input2 input3 x0 y0).1
      (horizontalValues input1 input2 input3 x0 y0).2.2.1
      (by rw [ht.1.1.1]; exact hin) (by rw [ht.1.1.2.1]; exact hyin)
    have h2 := Wrapper.get_set_set t.2 ht.2.2 (x0 * 2) y0
      (horizontalValues input1 input2 input3 x0 y0).2.1
      (horizontalValues input1 input2 input3 x0 y0).2.2.2
      (by rw [ht.2.1.1]; exact hin) (by rw [ht.2.1.2.1]; exact hyin)
    push_cast at h1 h2
    simp only [h1.1, h1.2, h2.1, h2.2]
  · intro y x t _ hne
    beta_reduce
    rw [horizontalStep_eq]
    have e0 := fun (w : Wrapper) (u v : ℚ) =>
      Wrapper.get_set_set_other w x y x0 y0 u v 0 (Or.inl rfl) hne
    have e1 := fun (w : Wrapper) (u v : ℚ) =>
      Wrapper.get_set_set_other w x y x0 y0 u v 1 (Or.inr rfl) hne
    simp only [add_zero] at e0
    simp only [e0, e1]


theorem toComponent_lines_get (w : Wrapper) (x y : Nat) (hx : x < w.xRes) (hy : y < w.yRes) :
    (w.toComponent.lines[y]?).bind (fun row => row[x]?) = some (w.get x y) := by
  simp [Wrapper.toComponent, hx, hy]

theorem fromComponent_constant (sx sy v : ℚ) (W H : Nat) (hH : 0 < H) :
    ∃ w, Wrapper.fromComponent ⟨sx, sy, List.replicate H (List.replicate W v)⟩ = some w ∧
      w.xRes = W ∧ w.yRes = H ∧
      ∀ i j : ℤ, 0 ≤ i → i < W → 0 ≤ j → j < H → w.get i j = v := by
  have hrect : Rectangular ⟨sx, sy, List.replicate H (List.replicate W v)⟩ := by
    constructor
    · intro h
      have := congrArg List.length h
      simp at this
      omega
    · intro row hrow
      obtain ⟨k, rfl⟩ := Nat.exists_eq_succ_of_ne_zero hH.ne'
      simp only [List.mem_replicate] at hrow
      rw [hrow.2]
      simp [List.replicate_succ]
  obtain ⟨w, hw, hframe, -, hget⟩ := fromComponent_get _ hrect
  have hhead : ((List.replicate H (List.replicate W v)).headD []).length = W := by
    obtain ⟨k, rfl⟩ := Nat.exists_eq_succ_of_ne_zero hH.ne'
    simp [List.replicate_succ]
  have hlen : (List.replicate H (List.replicate W v)).length = H := by simp
  simp only [hhead, hlen] at hframe hget
  refine ⟨w, hw, hframe.1, hframe.2.1, ?_⟩
  intro i j hi0 hi1 hj0 hj1
  lift i to ℕ using hi0
  lift j to ℕ using hj0
  have hi : i < W := by exact_mod_cast hi1
  have hj : j < H := by exact_mod_cast hj1
  rw [hget i j hi hj]
  simp [List.getD_eq_getElem?_getD, hi, hj]

theorem adaptiveSupersampler_constant (L b r : ℚ) :
    adaptiveSupersampler L L L L L L b b b r r r = (b, b, r, r) := by
  have h12 : weightK12 L L L L = 1 / 4 := by norm_num [weightK12]
  have h32 : weightK32 L L L L = 1 / 4 := by norm_num [weightK32]
  have h13 : weightK13 L L L L = 1 / 2 := by norm_num [weightK13]
  simp only [adaptiveSupersampler, h12, h32, h13, Prod.mk.injEq]
  refine ⟨?_, ?_, ?_, ?_⟩ <;> ring

theorem clampCbCr_fixes_legal (Y Cb Cr : ℚ)
    (hR0 : 0 ≤ red Y Cr) (hR1 : red Y Cr ≤ 255)
    (hG0 : 0 ≤ green Y Cb Cr) (hG1 : green Y Cb Cr ≤ 255)
    (hB0 : 0 ≤ blue Y Cb) (hB1 : blue Y Cb ≤ 255)
    (hCr : Cr ≤ 255) :
    clampCbCr Y Cb Cr = (Cb, Cr) := by
  simp only [red, green, blue, kr2, kb2, kb3, kr3, shift] at hR0 hR1 hG0 hG1 hB0 hB1
  have hb : boxCb Y Cb = Cb := by
    apply clamp_eq_self
    · simp only [boxMinCb, div_kb2, shift]
      apply max_le <;> linarith
    · simp only [boxMaxCb, div_kb2, shift]
      linarith
  have hr : boxCr Y Cr = Cr := by
    apply clamp_eq_self
    · simp only [boxMinCr, div_kr2, shift]
      apply max_le <;> linarith
    · simp only [boxMaxCr, div_kr2, shift]
      apply le_min <;> linarith
  rw [clampCbCr_branches, if_neg, if_neg, hb, hr]
  · simp only [sumCbCr, hb, hr, minCbCr, kb3, kr3, shift]; linarith
  · simp only [sumCbCr, hb, hr, maxCbCr, kb3, kr3, shift]; linarith

theorem clampTwoCbCr_constant (Y b r : ℚ) (h : clampCbCr Y b r = (b, r)) :
    clampTwoCbCr Y b r Y b r = (b, r, b, r) := by
  simp only [clampTwoCbCr, gt_iff_lt, lt_self_iff_false, if_false, h, add_sub_cancel_right]

theorem horizontalValues_constant (w1 w2 w3 : Wrapper) (Y b r : ℚ) (Cw H : Nat)
    (h1 : ∀ i j : ℤ, 0 ≤ i → i < ((2 * Cw : ℕ) : ℤ) → 0 ≤ j → j < H → w1.get i j = Y)
    (h2 : ∀ i j : ℤ, 0 ≤ i → i < Cw → 0 ≤ j → j < H → w2.get i j = b)
    (h3 : ∀ i j : ℤ, 0 ≤ i → i < Cw → 0 ≤ j → j < H → w3.get i j = r)
    (hfix : clampCbCr Y b r = (b, r))
    (x y : Nat) (hx1 : 1 ≤ x) (hx2 : x + 2 ≤ Cw) (hy : y < H) :
    horizontalValues w1 w2 w3 x y = (b, r, b, r) := by
  have hy0 : (0 : ℤ) ≤ y := by omega
  have hy1 : (y : ℤ) < H := by omega
  have e1 : ∀ k : ℤ, -2 ≤ k → k ≤ 3 → w1.get ((x : ℤ) * 2 + k) y = Y := by
    intro k hk0 hk1
    exact h1 _ _ (by omega) (by push_cast; omega) hy0 hy1
  have e2 : ∀ k : ℤ, -1 ≤ k → k ≤ 1 → w2.get ((x : ℤ) + k) y = b := by
    intro k hk0 hk1
    exact h2 _ _ (by omega) (by omega) hy0 hy1
  have e3 : ∀ k : ℤ, -1 ≤ k → k ≤ 1 → w3.get ((x : ℤ) + k) y = r := by
    intro k hk0 hk1
    exact h3 _ _ (by omega) (by omega) hy0 hy1
  have a1 := e1 (-2) (by norm_num) (by norm_num)
  have a2 := e1 (-1) (by norm_num) (by norm_num)
  have a3 := e1 0 (by norm_num) (by norm_num)
  have a4 := e1 1 (by norm_num) (by norm_num)
  have a5 := e1 2 (by norm_num) (by norm_num)
  have a6 := e1 3 (by norm_num) (by norm_num)
  have b1 := e2 (-1) (by norm_num) (by norm_num)
  have b2 := e2 0 (by norm_num) (by norm_num)
  have b3 := e2 1 (by norm_num) (by norm_num)
  have c1 := e3 (-1) (by norm_num) (by norm_num)
  have c2 := e3 0 (by norm_num) (by norm_num)
  have c3 := e3 1 (by norm_num) (by norm_num)
  simp only [add_zero, ← sub_eq_add_neg] at a1 a2 a3 b1 b2 c1 c2
  simp only [horizontalValues, a1, a2, a3, a4, a5, a6, b1, b2, b3, c1, c2, c3,
    adaptiveSupersampler_constant]
  exact clampTwoCbCr_constant Y b r hfix


/-- C20. On a 4:2:2 input whose luma plane is constant `Y` (width `2 * Cw`) and whose Cb
and Cr planes are constant `b` and `r`, with `Y`, `b`, `r` in `[0, 255]` and implied R, G,
B in `[0, 255]`, the entry point returns a result whose samples at columns `2x` and
`2x + 1`, for `1 ≤ x ≤ Cw - 2` and every row, are `b` in the Cb output and `r` in the Cr
output. -/
theorem experiment_422_constant_interior (Y b r : ℚ) (Cw H : Nat) (hH : 0 < H)
    (_hY0 : 0 ≤ Y) (_hY1 : Y ≤ 255) (_hb0 : 0 ≤ b) (_hb1 : b ≤ 255)
    (_hr0 : 0 ≤ r) (hr1 : r ≤ 255)
    (hR0 : 0 ≤ red Y r) (hR1 : red Y r ≤ 255)
    (hG0 : 0 ≤ green Y b r) (hG1 : green Y b r ≤ 255)
    (hB0 : 0 ≤ blue Y b) (hB1 : blue Y b ≤ 255) :
    ∃ o2 o3,
      experiment ⟨1, 1, List.replicate H (List.replicate (2 * Cw) Y)⟩
        ⟨1 / 2, 1, List.replicate H (List.replicate Cw b)⟩
        ⟨1 / 2, 1, List.replicate H (List.replicate Cw r)⟩ = some (o2, o3) ∧
      ∀ x y : Nat, 1 ≤ x → x + 2 ≤ Cw → y < H →
        (o2.lines[y]?).bind (fun row => row[2 * x]?) = some b ∧
        (o2.lines[y]?).bind (fun row => row[2 * x + 1]?) = some b ∧
        (o3.lines[y]?).bind (fun row => row[2 * x]?) = some r ∧
        (o3.lines[y]?).bind (fun row => row[2 * x + 1]?) = some r := by
  obtain ⟨w1, hw1, hx1, hy1, hg1⟩ := fromComponent_constant 1 1 Y (2 * Cw) H hH
  obtain ⟨w2, hw2, hx2, hy2, hg2⟩ := fromComponent_constant (1 / 2) 1 b Cw H hH
  obtain ⟨w3, hw3, -, -, hg3⟩ := fromComponent_constant (1 / 2) 1 r Cw H hH
  have hfix := clampCbCr_fixes_legal Y b r hR0 hR1 hG0 hG1 hB0 hB1 hr1
  have hres : experiment ⟨1, 1, List.replicate H (List.replicate (2 * Cw) Y)⟩
      ⟨1 / 2, 1, List.replicate H (List.replicate Cw b)⟩
      ⟨1 / 2, 1, List.replicate H (List.replicate Cw r)⟩ = some (pipeline422 w1 w2 w3) := by
    unfold experiment
    rw [if_neg (by norm_num [is444]), if_pos (by norm_num [is422]),
      withPlanes_some _ _ _ _ w1 w2 w3 hw1 hw2 hw3]
  refine ⟨(pipeline422 w1 w2 w3).1, (pipeline422 w1 w2 w3).2, hres, ?_⟩
  intro x y hxa hxb hy
  have hpipe : pipeline422 w1 w2 w3 =
      ((horizontalPass w1 w2 w3 w2.yRes w2.xRes
          (Wrapper.new w1.xRes w1.yRes 1 1, Wrapper.new w1.xRes w1.yRes 1 1)).1.toComponent,
        (horizontalPass w1 w2 w3 w2.yRes w2.xRes
          (Wrapper.new w1.xRes w1.yRes 1 1, Wrapper.new w1.xRes w1.yRes 1 1)).2.toComponent) :=
    rfl
  have hframe := horizontalPass_frame w1 w2 w3 w2.yRes w2.xRes
    (Wrapper.new w1.xRes w1.yRes 1 1, Wrapper.new w1.xRes w1.yRes 1 1)
    (Wrapper.new w1.xRes w1.yRes 1 1) (Wrapper.sameFrame_refl _) (Wrapper.sameFrame_refl _)
  have hget := horizontalPass_get w1 w2 w3 w2.yRes w2.xRes (Wrapper.new w1.xRes w1.yRes 1 1)
    (Wrapper.wellSized_new _ _ _ _) x y (by rw [hx2]; omega) (by rw [hy2]; exact hy)
    (by simp only [Wrapper.new]; rw [hx1]; omega) (by simp only [Wrapper.new]; rw [hy1]; exact hy)
  rw [horizontalValues_constant w1 w2 w3 Y b r Cw H hg1 hg2 hg3 hfix x y hxa hxb hy] at hget
  simp only [Prod.mk.injEq] at hget
  obtain ⟨g1, g2, g3, g4⟩ := hget
  obtain ⟨⟨f1x, f1y, -, -⟩, ⟨f2x, f2y, -, -⟩⟩ := hframe
  have e1x := f1x.trans hx1
  have e1y := f1y.trans hy1
  have e2x := f2x.trans hx1
  have e2y := f2y.trans hy1
  rw [hpipe]
  have c0 : ((2 * x : ℕ) : ℤ) = (x : ℤ) * 2 := by push_cast; ring
  have c1 : ((2 * x + 1 : ℕ) : ℤ) = (x : ℤ) * 2 + 1 := by push_cast; ring
  refine ⟨?_, ?_, ?_, ?_⟩
  · rw [toComponent_lines_get _ (2 * x) y (by rw [e1x]; omega) (by rw [e1y]; exact hy), c0, g1]
  · rw [toComponent_lines_get _ (2 * x + 1) y (by rw [e1x]; omega) (by rw [e1y]; exact hy),
      c1, g2]
  · rw [toComponent_lines_get _ (2 * x) y (by rw [e2x]; omega) (by rw [e2y]; exact hy), c0, g3]
  · rw [toComponent_lines_get _ (2 * x + 1) y (by rw [e2x]; omega) (by rw [e2y]; exact hy),
      c1, g4]

/-- Witness for C20: a grey 6x1 luma row with 3x1 chroma rows. -/
theorem experiment_422_constant_interior_witness :
    ∃ o2 o3,
      experiment ⟨1, 1, List.replicate 1 (List.replicate (2 * 3) 128)⟩
        ⟨1 / 2, 1, List.replicate 1 (List.replicate 3 128)⟩
        ⟨1 / 2, 1, List.replicate 1 (List.replicate 3 128)⟩ = some (o2, o3) ∧
      ∀ x y : Nat, 1 ≤ x → x + 2 ≤ 3 → y < 1 →
        (o2.lines[y]?).bind (fun row => row[2 * x]?) = some 128 ∧
        (o2.lines[y]?).bind (fun row => row[2 * x + 1]?) = some 128 ∧
        (o3.lines[y]?).bind (fun row => row[2 * x]?) = some 128 ∧
        (o3.lines[y]?).bind (fun row => row[2 * x + 1]?) = some 128 :=
  experiment_422_constant_interior 128 128 128 3 1 (by norm_num)
    (by norm_num) (by norm_num) (by norm_num) (by norm_num) (by norm_num) (by norm_num)
    (by norm_num [red, kr2, shift]) (by norm_num [red, kr2, shift])
    (by norm_num [green, kb3, kr3, shift]) (by norm_num [green, kb3, kr3, shift])
    (by norm_num [blue, kb2, shift]) (by norm_num [blue, kb2, shift])

/-! ## Double-precision evaluation at two inputs -/

theorem roundHalfEven_eq {q : ℚ} {m : ℤ} (h : |q - m| < 1 / 2) : roundHalfEven q = m := by
  rw [abs_lt] at h
  unfold roundHalfEven
  by_cases hm : (m : ℚ) ≤ q
  · have hf : ⌊q⌋ = m := by
      rw [Int.floor_eq_iff]
      constructor
      · exact hm
      · linarith [h.2]
    rw [hf, if_pos (by linarith [h.2])]
  · have hf : ⌊q⌋ = m - 1 := by
      rw [Int.floor_eq_iff]
      push_cast
      constructor
      · linarith [h.1]
      · push_neg at hm; linarith
    rw [hf]
    push_cast
    rw [if_neg (by linarith [h.1]), if_pos (by linarith [h.1])]
    ring

theorem roundDouble_eq {q : ℚ} (e m : ℤ) (he : -1074 ≤ e)
    (h1 : (2 : ℚ) ^ (e + 52) ≤ |q|) (h2 : |q| < (2 : ℚ) ^ (e + 53))
    (h3 : |q / 2 ^ e - m| < 1 / 2) : roundDouble q = m * 2 ^ e := by
  have hpos : 0 < |q| := lt_of_lt_of_le (by positivity) h1
  have hq : q ≠ 0 := abs_pos.mp hpos
  have hlog : Int.log 2 |q| = e + 52 := by
    apply le_antisymm
    · have := (Int.lt_zpow_iff_log_lt (b := 2) (by norm_num) hpos (x := e + 53)).mp
        (by exact_mod_cast h2)
      omega
    · exact (Int.zpow_le_iff_le_log (b := 2) (by norm_num) hpos).mp (by exact_mod_cast h1)
  unfold roundDouble
  rw [if_neg hq, hlog]
  have hmax : max (e + 52 - 52) (-1074) = e := by
    rw [add_sub_cancel_right]; exact max_eq_left he
  rw [hmax, roundHalfEven_eq h3]


theorem roundDouble_of_scaled {q : ℚ} (k : ℕ) (m : ℤ) (hk : k ≤ 1074) (hq : 0 < q)
    (h1 : (2 : ℚ) ^ 52 ≤ q * 2 ^ k) (h2 : q * 2 ^ k < 2 ^ 53)
    (h3 : (m : ℚ) - 1 / 2 < q * 2 ^ k) (h4 : q * 2 ^ k < m + 1 / 2) :
    roundDouble q = m / 2 ^ k := by
  have hpk : (0 : ℚ) < 2 ^ k := by positivity
  have hz : (2 : ℚ) ^ (-(k : ℤ)) = 1 / 2 ^ k := by
    rw [zpow_neg, zpow_natCast, one_div]
  have habs : |q| = q := abs_of_pos hq
  have key := roundDouble_eq (q := q) (-(k : ℤ)) m (by omega)
    (by
      rw [habs, zpow_add₀ (by norm_num : (2 : ℚ) ≠ 0), hz]
      rw [one_div, ← div_eq_inv_mul, div_le_iff₀ hpk]
      exact_mod_cast h1)
    (by
      rw [habs, zpow_add₀ (by norm_num : (2 : ℚ) ≠ 0), hz]
      rw [one_div, ← div_eq_inv_mul, lt_div_iff₀ hpk]
      exact_mod_cast h2)
    (by
      rw [hz, div_div_eq_mul_div, div_one, abs_lt]
      constructor <;> linarith)
  rw [key, hz]
  ring

theorem roundDouble_zero : roundDouble 0 = 0 := by
  simp [roundDouble]

theorem roundHalfEven_nonpos {q : ℚ} (hq : q < 0) : roundHalfEven q ≤ 0 := by
  have hf : ⌊q⌋ ≤ -1 := by
    have : ⌊q⌋ < 0 := Int.floor_lt.mpr (by exact_mod_cast hq)
    omega
  unfold roundHalfEven
  split
  · omega
  · split
    · omega
    · split <;> omega

theorem roundDouble_nonpos {q : ℚ} (hq : q ≤ 0) : roundDouble q ≤ 0 := by
  unfold roundDouble
  split
  · exact le_refl _
  · rename_i hne
    have hlt : q < 0 := lt_of_le_of_ne hq hne
    have hp : (0 : ℚ) < 2 ^ max (Int.log 2 |q| - 52) (-1074) := by positivity
    have h1 : q / 2 ^ max (Int.log 2 |q| - 52) (-1074) < 0 := div_neg_of_neg_of_pos hlt hp
    have h2 : ((roundHalfEven (q / 2 ^ max (Int.log 2 |q| - 52) (-1074)) : ℤ) : ℚ) ≤ 0 := by
      exact_mod_cast roundHalfEven_nonpos h1
    exact mul_nonpos_of_nonpos_of_nonneg h2 hp.le

theorem roundDouble_of_scaled_neg {q : ℚ} (k : ℕ) (m : ℤ) (hk : k ≤ 1074) (hq : q < 0)
    (h1 : (2 : ℚ) ^ 52 ≤ -q * 2 ^ k) (h2 : -q * 2 ^ k < 2 ^ 53)
    (h3 : (m : ℚ) - 1 / 2 < q * 2 ^ k) (h4 : q * 2 ^ k < m + 1 / 2) :
    roundDouble q = m / 2 ^ k := by
  have hpk : (0 : ℚ) < 2 ^ k := by positivity
  have hz : (2 : ℚ) ^ (-(k : ℤ)) = 1 / 2 ^ k := by
    rw [zpow_neg, zpow_natCast, one_div]
  have habs : |q| = -q := abs_of_neg hq
  have key := roundDouble_eq (q := q) (-(k : ℤ)) m (by omega)
    (by
      rw [habs, zpow_add₀ (by norm_num : (2 : ℚ) ≠ 0), hz]
      rw [one_div, ← div_eq_inv_mul, div_le_iff₀ hpk]
      exact_mod_cast h1)
    (by
      rw [habs, zpow_add₀ (by norm_num : (2 : ℚ) ≠ 0), hz]
      rw [one_div, ← div_eq_inv_mul, lt_div_iff₀ hpk]
      exact_mod_cast h2)
    (by
      rw [hz, div_div_eq_mul_div, div_one, abs_lt]
      constructor <;> linarith)
  rw [key, hz]
  ring

theorem roundHalfEven_tie {q : ℚ} {M : ℤ} (hM : M % 2 = 0)
    (h : q = M - 1 / 2 ∨ q = M + 1 / 2) : roundHalfEven q = M := by
  unfold roundHalfEven
  rcases h with h | h
  · have hf : ⌊q⌋ = M - 1 := by
      rw [Int.floor_eq_iff]
      push_cast
      constructor <;> linarith
    have hr : q - ((M - 1 : ℤ) : ℚ) = 1 / 2 := by push_cast; linarith
    rw [hf, hr, if_neg (lt_irrefl _), if_neg (lt_irrefl _), if_neg (by omega)]
    ring
  · have hf : ⌊q⌋ = M := by
      rw [Int.floor_eq_iff]
      constructor <;> linarith
    have hr : q - (M : ℚ) = 1 / 2 := by linarith
    rw [hf, hr, if_neg (lt_irrefl _), if_neg (lt_irrefl _), if_pos hM]

theorem roundDouble_of_scaled_tie {q : ℚ} (k : ℕ) (m : ℤ) (hk : k ≤ 1074) (hq : 0 < q)
    (h1 : (2 : ℚ) ^ 52 ≤ q * 2 ^ k) (h2 : q * 2 ^ k < 2 ^ 53) (hm : m % 2 = 0)
    (h3 : q * 2 ^ k = m - 1 / 2 ∨ q * 2 ^ k = m + 1 / 2) :
    roundDouble q = m / 2 ^ k := by
  have hpk : (0 : ℚ) < 2 ^ k := by positivity
  have hz : (2 : ℚ) ^ (-(k : ℤ)) = 1 / 2 ^ k := by
    rw [zpow_neg, zpow_natCast, one_div]
  have hpos : 0 < |q| := abs_pos.mpr hq.ne'
  have habs : |q| = q := abs_of_pos hq
  have hlog : Int.log 2 |q| = -(k : ℤ) + 52 := by
    apply le_antisymm
    · have := (Int.lt_zpow_iff_log_lt (b := 2) (by norm_num) hpos (x := -(k : ℤ) + 53)).mp (by
        rw [habs]
        push_cast
        rw [zpow_add₀ (by norm_num : (2 : ℚ) ≠ 0), hz]
        rw [one_div, ← div_eq_inv_mul, lt_div_iff₀ hpk]
        exact_mod_cast h2)
      omega
    · exact (Int.zpow_le_iff_le_log (b := 2) (by norm_num) hpos).mp (by
        rw [habs]
        push_cast
        rw [zpow_add₀ (by norm_num : (2 : ℚ) ≠ 0), hz]
        rw [one_div, ← div_eq_inv_mul, div_le_iff₀ hpk]
        exact_mod_cast h1)
  unfold roundDouble
  rw [if_neg hq.ne', hlog]
  have hmax : max (-(k : ℤ) + 52 - 52) (-1074) = -(k : ℤ) := by
    rw [add_sub_cancel_right]; exact max_eq_left (by omega)
  rw [hmax, hz, div_div_eq_mul_div, div_one, roundHalfEven_tie hm h3]
  ring

theorem roundDouble_step1 : roundDouble (443 / 250) = 7980378539700519 / 4503599627370496 := by
  rw [roundDouble_of_scaled 52 7980378539700519 (by norm_num) (by norm_num) (by norm_num) (by norm_num)
    (by norm_num) (by norm_num)]
  norm_num

theorem roundDouble_step2 : roundDouble (701 / 500) = 6314046677573435 / 4503599627370496 := by
  rw [roundDouble_of_scaled 52 6314046677573435 (by norm_num) (by norm_num) (by norm_num) (by norm_num)
    (by norm_num) (by norm_num)]
  norm_num

theorem roundDouble_step3 : roundDouble (3441363 / 10000000) = 6199408449778645 / 18014398509481984 := by
  rw [roundDouble_of_scaled 54 6199408449778645 (by norm_num) (by norm_num) (by norm_num) (by norm_num)
    (by norm_num) (by norm_num)]
  norm_num

theorem roundDouble_step4 : roundDouble (17853409 / 25000000) = 6432368489575445 / 9007199254740992 := by
  rw [roundDouble_of_scaled 53 6432368489575445 (by norm_num) (by norm_num) (by norm_num) (by norm_num)
    (by norm_num) (by norm_num)]
  norm_num

theorem roundDouble_step5 : roundDouble (382805968326492160 / 2660126179900173) = 1265803454098781 / 8796093022208 := by
  rw [roundDouble_of_scaled 45 5063213816395124 (by norm_num) (by norm_num) (by norm_num) (by norm_num)
    (by norm_num) (by norm_num)]
  norm_num

theorem roundDouble_step6 : roundDouble (-(139903547256157 / 8796093022208)) = -(139903547256157 / 8796093022208) := by
  rw [roundDouble_of_scaled_neg 49 (-8953827024394048) (by norm_num) (by norm_num) (by norm_num) (by norm_num)
    (by norm_num) (by norm_num)]
  norm_num

theorem roundDouble_step7 : roundDouble (128) = 128 := by
  rw [roundDouble_of_scaled 45 4503599627370496 (by norm_num) (by norm_num) (by norm_num) (by norm_num)
    (by norm_num) (by norm_num)]
  norm_num

theorem roundDouble_step8 : roundDouble (229683580995895296 / 1262809335514687) = 3199720000945849 / 17592186044416 := by
  rw [roundDouble_of_scaled 45 6399440001891698 (by norm_num) (by norm_num) (by norm_num) (by norm_num)
    (by norm_num) (by norm_num)]
  norm_num

theorem roundDouble_step9 : roundDouble (-(947920187260601 / 17592186044416)) = -(947920187260601 / 17592186044416) := by
  rw [roundDouble_of_scaled_neg 47 (-7583361498084808) (by norm_num) (by norm_num) (by norm_num) (by norm_num)
    (by norm_num) (by norm_num)]
  norm_num

theorem roundDouble_step10 : roundDouble (6432368489575445 / 140737488355328) = 6432368489575445 / 140737488355328 := by
  rw [roundDouble_of_scaled 47 6432368489575445 (by norm_num) (by norm_num) (by norm_num) (by norm_num)
    (by norm_num) (by norm_num)]
  norm_num

theorem roundDouble_step11 : roundDouble (19064145428929535 / 18014398509481984) = 18617329520439 / 17592186044416 := by
  rw [roundDouble_of_scaled 52 4766036357232384 (by norm_num) (by norm_num) (by norm_num) (by norm_num)
    (by norm_num) (by norm_num)]
  norm_num

theorem roundDouble_step12 : roundDouble (18617329520439 / 137438953472) = 18617329520439 / 137438953472 := by
  rw [roundDouble_of_scaled 45 4766036357232384 (by norm_num) (by norm_num) (by norm_num) (by norm_num)
    (by norm_num) (by norm_num)]
  norm_num

theorem roundDouble_step13 : roundDouble (53664262655799 / 137438953472) = 53664262655799 / 137438953472 := by
  rw [roundDouble_of_scaled 44 6869025619942272 (by norm_num) (by norm_num) (by norm_num) (by norm_num)
    (by norm_num) (by norm_num)]
  norm_num

theorem roundDouble_step14 : roundDouble (64) = 64 := by
  rw [roundDouble_of_scaled 46 4503599627370496 (by norm_num) (by norm_num) (by norm_num) (by norm_num)
    (by norm_num) (by norm_num)]
  norm_num

theorem roundDouble_step15 : roundDouble (6199408449778645 / 140737488355328) = 6199408449778645 / 140737488355328 := by
  rw [roundDouble_of_scaled 47 6199408449778645 (by norm_num) (by norm_num) (by norm_num) (by norm_num)
    (by norm_num) (by norm_num)]
  norm_num

theorem roundDouble_step16 : roundDouble (6315888469677045 / 70368744177664) = 6315888469677045 / 70368744177664 := by
  rw [roundDouble_of_scaled 46 6315888469677045 (by norm_num) (by norm_num) (by norm_num) (by norm_num)
    (by norm_num) (by norm_num)]
  norm_num

theorem roundDouble_step17 : roundDouble (12631776939354091 / 140737488355328) = 3157944234838523 / 35184372088832 := by
  rw [roundDouble_of_scaled_tie 46 6315888469677046 (by norm_num) (by norm_num) (by norm_num) (by norm_num)
    (by decide) (Or.inl (by norm_num))]
  norm_num

theorem roundDouble_step18 : roundDouble (6315888469677046 / 6315888469677045) = 4503599627370497 / 4503599627370496 := by
  rw [roundDouble_of_scaled 52 4503599627370497 (by norm_num) (by norm_num) (by norm_num) (by norm_num)
    (by norm_num) (by norm_num)]
  norm_num

theorem roundDouble_step19 : roundDouble (4503599627370497 / 35184372088832) = 4503599627370497 / 35184372088832 := by
  rw [roundDouble_of_scaled 45 4503599627370497 (by norm_num) (by norm_num) (by norm_num) (by norm_num)
    (by norm_num) (by norm_num)]
  norm_num

theorem roundDouble_step20 : roundDouble (6755399441055745 / 35184372088832) = 6755399441055745 / 35184372088832 := by
  rw [roundDouble_of_scaled 45 6755399441055745 (by norm_num) (by norm_num) (by norm_num) (by norm_num)
    (by norm_num) (by norm_num)]
  norm_num

theorem roundDouble_step21 : roundDouble (1 / 35184372088832) = 1 / 35184372088832 := by
  rw [roundDouble_of_scaled 97 4503599627370496 (by norm_num) (by norm_num) (by norm_num) (by norm_num)
    (by norm_num) (by norm_num)]
  norm_num

theorem roundDouble_step22 : roundDouble (7980378539700519 / 158456325028528675187087900672) = 7980378539700519 / 158456325028528675187087900672 := by
  rw [roundDouble_of_scaled 97 7980378539700519 (by norm_num) (by norm_num) (by norm_num) (by norm_num)
    (by norm_num) (by norm_num)]
  norm_num

theorem roundDouble_step23 : roundDouble (40406362882274820153085954371879 / 158456325028528675187087900672) = 4486007441326081 / 17592186044416 := by
  rw [roundDouble_of_scaled 45 8972014882652162 (by norm_num) (by norm_num) (by norm_num) (by norm_num)
    (by norm_num) (by norm_num)]
  norm_num

theorem roundDouble_step24 : roundDouble (4503599627370496 / 7980378539700519) = 635383694606447 / 1125899906842624 := by
  rw [roundDouble_of_scaled 53 5083069556851576 (by norm_num) (by norm_num) (by norm_num) (by norm_num)
    (by norm_num) (by norm_num)]
  norm_num

theorem roundDouble_step25 : roundDouble (143479804381249425 / 1125899906842624) = 8967487773828089 / 70368744177664 := by
  rw [roundDouble_of_scaled 46 8967487773828089 (by norm_num) (by norm_num) (by norm_num) (by norm_num)
    (by norm_num) (by norm_num)]
  norm_num

theorem roundDouble_step26 : roundDouble (254) = 254 := by
  rw [roundDouble_of_scaled 45 8936830510563328 (by norm_num) (by norm_num) (by norm_num) (by norm_num)
    (by norm_num) (by norm_num)]
  norm_num

theorem roundDouble_step27 : roundDouble (1143914305352105984 / 7980378539700519) = 5043358075938673 / 35184372088832 := by
  rw [roundDouble_of_scaled 45 5043358075938673 (by norm_num) (by norm_num) (by norm_num) (by norm_num)
    (by norm_num) (by norm_num)]
  norm_num

theorem roundDouble_step28 : roundDouble (9546957703309169 / 35184372088832) = 596684856456823 / 2199023255552 := by
  rw [roundDouble_of_scaled_tie 44 4773478851654584 (by norm_num) (by norm_num) (by norm_num) (by norm_num)
    (by decide) (Or.inr (by norm_num))]
  norm_num

theorem roundDouble_step29 : roundDouble (4503599627370496 / 6314046677573435) = 6424535845036371 / 9007199254740992 := by
  rw [roundDouble_of_scaled 53 6424535845036371 (by norm_num) (by norm_num) (by norm_num) (by norm_num)
    (by norm_num) (by norm_num)]
  norm_num

theorem roundDouble_step30 : roundDouble (1146496968761810605 / 9007199254740992) = 8957007568451645 / 70368744177664 := by
  rw [roundDouble_of_scaled 46 8957007568451645 (by norm_num) (by norm_num) (by norm_num) (by norm_num)
    (by norm_num) (by norm_num)]
  norm_num

theorem roundDouble_step31 : roundDouble (1143914305352105984 / 6314046677573435) = 6374344158747025 / 35184372088832 := by
  rw [roundDouble_of_scaled 45 6374344158747025 (by norm_num) (by norm_num) (by norm_num) (by norm_num)
    (by norm_num) (by norm_num)]
  norm_num

theorem roundDouble_step32 : roundDouble (10877943786117521 / 35184372088832) = 679871486632345 / 2199023255552 := by
  rw [roundDouble_of_scaled_tie 44 5438971893058760 (by norm_num) (by norm_num) (by norm_num) (by norm_num)
    (by decide) (Or.inr (by norm_num))]
  norm_num

theorem roundDouble_step33 : roundDouble (55593119478356545537776333359405 / 1267650600228229401496703205376) = 6172076125560871 / 140737488355328 := by
  rw [roundDouble_of_scaled 47 6172076125560871 (by norm_num) (by norm_num) (by norm_num) (by norm_num)
    (by norm_num) (by norm_num)]
  norm_num

theorem roundDouble_step34 : roundDouble (57614773244197137038442061857025 / 633825300114114700748351602688) = 6396524781426509 / 70368744177664 := by
  rw [roundDouble_of_scaled 46 6396524781426509 (by norm_num) (by norm_num) (by norm_num) (by norm_num)
    (by norm_num) (by norm_num)]
  norm_num

theorem roundDouble_step35 : roundDouble (18965125688413889 / 140737488355328) = 296330088881467 / 2199023255552 := by
  rw [roundDouble_of_scaled 45 4741281422103472 (by norm_num) (by norm_num) (by norm_num) (by norm_num)
    (by norm_num) (by norm_num)]
  norm_num

theorem roundDouble_step36 : roundDouble (18754768473911 / 137438953472) = 18754768473911 / 137438953472 := by
  rw [roundDouble_of_scaled 45 4801220729321216 (by norm_num) (by norm_num) (by norm_num) (by norm_num)
    (by norm_num) (by norm_num)]
  norm_num

theorem roundDouble_step37 : roundDouble (-(16292164661449 / 137438953472)) = -(16292164661449 / 137438953472) := by
  rw [roundDouble_of_scaled_neg 46 (-8341588306661888) (by norm_num) (by norm_num) (by norm_num) (by norm_num)
    (by norm_num) (by norm_num)]
  norm_num

theorem roundDouble_step38 : roundDouble (-(39711480912903 / 70368744177664)) = -(39711480912903 / 70368744177664) := by
  rw [roundDouble_of_scaled_neg 53 (-5083069556851584) (by norm_num) (by norm_num) (by norm_num) (by norm_num)
    (by norm_num) (by norm_num)]
  norm_num

theorem roundDouble_step39 : roundDouble (-(316912650057057876286342896657 / 316912650057057350374175801344)) = -(4503599627370503 / 4503599627370496) := by
  rw [roundDouble_of_scaled_neg 52 (-4503599627370503) (by norm_num) (by norm_num) (by norm_num) (by norm_num)
    (by norm_num) (by norm_num)]
  norm_num

theorem roundDouble_step40 : roundDouble (-(7 / 4503599627370496)) = -(7 / 4503599627370496) := by
  rw [roundDouble_of_scaled_neg 102 (-7881299347898368) (by norm_num) (by norm_num) (by norm_num) (by norm_num)
    (by norm_num) (by norm_num)]
  norm_num

theorem clampCbCrD_branches (Y Cb Cr : ℚ) :
    clampCbCrD Y Cb Cr =
      if sumCbCrD Y Cb Cr > maxCbCrD Y then
        (dAdd (boxMinCbD Y) (dMul (dSub (boxCbD Y Cb) (boxMinCbD Y))
            (dDiv (dSub (dSub (maxCbCrD Y) (dMul kb3D (boxMinCbD Y))) (dMul kr3D (boxMinCrD Y)))
              (dAdd (dMul kb3D (dSub (boxCbD Y Cb) (boxMinCbD Y)))
                (dMul kr3D (dSub (boxCrD Y Cr) (boxMinCrD Y)))))),
          dAdd (boxMinCrD Y) (dMul (dSub (boxCrD Y Cr) (boxMinCrD Y))
            (dDiv (dSub (dSub (maxCbCrD Y) (dMul kb3D (boxMinCbD Y))) (dMul kr3D (boxMinCrD Y)))
              (dAdd (dMul kb3D (dSub (boxCbD Y Cb) (boxMinCbD Y)))
                (dMul kr3D (dSub (boxCrD Y Cr) (boxMinCrD Y)))))))
      else if sumCbCrD Y Cb Cr < minCbCrD Y then
        (dAdd (boxCbD Y Cb) (dMul (dSub (boxMaxCbD Y) (boxCbD Y Cb)) (lowFactorD Y Cb Cr)),
          dAdd (boxCrD Y Cr) (dMul (dSub (boxMaxCbD Y) (boxCbD Y Cb)) (lowFactorD Y Cb Cr)))
      else
        (boxCbD Y Cb, boxCrD Y Cr) := rfl

theorem lowFactorD_eval : lowFactorD 255 0 64 = 4503599627370497 / 4503599627370496 := by
  norm_num [lowFactorD, lowDenominatorD, minCbCrD, boxCbD, boxCrD, boxMinCbD, boxMaxCbD,
    boxMinCrD, boxMaxCrD, clamp, dAdd, dSub, dMul, dDiv, kb2D, kr2D, kb3D, kr3D, shift,
    roundDouble_zero, roundDouble_step1, roundDouble_step2, roundDouble_step3, roundDouble_step4, roundDouble_step5, roundDouble_step6, roundDouble_step7, roundDouble_step8, roundDouble_step9, roundDouble_step10, roundDouble_step11, roundDouble_step12, roundDouble_step13, roundDouble_step14, roundDouble_step15, roundDouble_step16, roundDouble_step17, roundDouble_step18, roundDouble_step19, roundDouble_step20, roundDouble_step21, roundDouble_step22, roundDouble_step23, roundDouble_step24, roundDouble_step25, roundDouble_step26, roundDouble_step27, roundDouble_step28, roundDouble_step29, roundDouble_step30, roundDouble_step31, roundDouble_step32, roundDouble_step33, roundDouble_step34, roundDouble_step35, roundDouble_step36, roundDouble_step37, roundDouble_step38, roundDouble_step39, roundDouble_step40]

theorem lowDenominatorD_eval : lowDenominatorD 255 0 64 = 6315888469677045 / 70368744177664 := by
  norm_num [lowDenominatorD, boxCbD, boxCrD, boxMinCbD, boxMaxCbD,
    boxMinCrD, boxMaxCrD, clamp, dAdd, dSub, dMul, dDiv, kb2D, kr2D, kb3D, kr3D, shift,
    roundDouble_zero, roundDouble_step1, roundDouble_step2, roundDouble_step3, roundDouble_step4, roundDouble_step5, roundDouble_step6, roundDouble_step7, roundDouble_step8, roundDouble_step9, roundDouble_step10, roundDouble_step11, roundDouble_step12, roundDouble_step13, roundDouble_step14, roundDouble_step15, roundDouble_step16, roundDouble_step17, roundDouble_step18, roundDouble_step19, roundDouble_step20, roundDouble_step21, roundDouble_step22, roundDouble_step23, roundDouble_step24, roundDouble_step25, roundDouble_step26, roundDouble_step27, roundDouble_step28, roundDouble_step29, roundDouble_step30, roundDouble_step31, roundDouble_step32, roundDouble_step33, roundDouble_step34, roundDouble_step35, roundDouble_step36, roundDouble_step37, roundDouble_step38, roundDouble_step39, roundDouble_step40]

theorem sumCbCrD_eval : sumCbCrD 255 0 64 = 6432368489575445 / 140737488355328 := by
  norm_num [sumCbCrD, boxCbD, boxCrD, boxMinCbD, boxMaxCbD, boxMinCrD, boxMaxCrD, clamp, dAdd, dSub, dMul, dDiv, kb2D, kr2D, kb3D, kr3D, shift,
    roundDouble_zero, roundDouble_step1, roundDouble_step2, roundDouble_step3, roundDouble_step4, roundDouble_step5, roundDouble_step6, roundDouble_step7, roundDouble_step8, roundDouble_step9, roundDouble_step10, roundDouble_step11, roundDouble_step12, roundDouble_step13, roundDouble_step14, roundDouble_step15, roundDouble_step16, roundDouble_step17, roundDouble_step18, roundDouble_step19, roundDouble_step20, roundDouble_step21, roundDouble_step22, roundDouble_step23, roundDouble_step24, roundDouble_step25, roundDouble_step26, roundDouble_step27, roundDouble_step28, roundDouble_step29, roundDouble_step30, roundDouble_step31, roundDouble_step32, roundDouble_step33, roundDouble_step34, roundDouble_step35, roundDouble_step36, roundDouble_step37, roundDouble_step38, roundDouble_step39, roundDouble_step40]

theorem minCbCrD_eval : minCbCrD 255 = 18617329520439 / 137438953472 := by
  norm_num [minCbCrD, clamp, dAdd, dSub, dMul, dDiv, kb2D, kr2D, kb3D, kr3D, shift,
    roundDouble_zero, roundDouble_step1, roundDouble_step2, roundDouble_step3, roundDouble_step4, roundDouble_step5, roundDouble_step6, roundDouble_step7, roundDouble_step8, roundDouble_step9, roundDouble_step10, roundDouble_step11, roundDouble_step12, roundDouble_step13, roundDouble_step14, roundDouble_step15, roundDouble_step16, roundDouble_step17, roundDouble_step18, roundDouble_step19, roundDouble_step20, roundDouble_step21, roundDouble_step22, roundDouble_step23, roundDouble_step24, roundDouble_step25, roundDouble_step26, roundDouble_step27, roundDouble_step28, roundDouble_step29, roundDouble_step30, roundDouble_step31, roundDouble_step32, roundDouble_step33, roundDouble_step34, roundDouble_step35, roundDouble_step36, roundDouble_step37, roundDouble_step38, roundDouble_step39, roundDouble_step40]

theorem maxCbCrD_eval : maxCbCrD 255 = 53664262655799 / 137438953472 := by
  norm_num [maxCbCrD, clamp, dAdd, dSub, dMul, dDiv, kb2D, kr2D, kb3D, kr3D, shift,
    roundDouble_zero, roundDouble_step1, roundDouble_step2, roundDouble_step3, roundDouble_step4, roundDouble_step5, roundDouble_step6, roundDouble_step7, roundDouble_step8, roundDouble_step9, roundDouble_step10, roundDouble_step11, roundDouble_step12, roundDouble_step13, roundDouble_step14, roundDouble_step15, roundDouble_step16, roundDouble_step17, roundDouble_step18, roundDouble_step19, roundDouble_step20, roundDouble_step21, roundDouble_step22, roundDouble_step23, roundDouble_step24, roundDouble_step25, roundDouble_step26, roundDouble_step27, roundDouble_step28, roundDouble_step29, roundDouble_step30, roundDouble_step31, roundDouble_step32, roundDouble_step33, roundDouble_step34, roundDouble_step35, roundDouble_step36, roundDouble_step37, roundDouble_step38, roundDouble_step39, roundDouble_step40]

theorem boxMaxCbD_eval : boxMaxCbD 255 = 128 := by
  norm_num [boxMaxCbD, clamp, dAdd, dSub, dMul, dDiv, kb2D, kr2D, kb3D, kr3D, shift,
    roundDouble_zero, roundDouble_step1, roundDouble_step2, roundDouble_step3, roundDouble_step4, roundDouble_step5, roundDouble_step6, roundDouble_step7, roundDouble_step8, roundDouble_step9, roundDouble_step10, roundDouble_step11, roundDouble_step12, roundDouble_step13, roundDouble_step14, roundDouble_step15, roundDouble_step16, roundDouble_step17, roundDouble_step18, roundDouble_step19, roundDouble_step20, roundDouble_step21, roundDouble_step22, roundDouble_step23, roundDouble_step24, roundDouble_step25, roundDouble_step26, roundDouble_step27, roundDouble_step28, roundDouble_step29, roundDouble_step30, roundDouble_step31, roundDouble_step32, roundDouble_step33, roundDouble_step34, roundDouble_step35, roundDouble_step36, roundDouble_step37, roundDouble_step38, roundDouble_step39, roundDouble_step40]

theorem clampCbCrD_eval :
    clampCbCrD 255 0 64 = (4503599627370497 / 35184372088832, 6755399441055745 / 35184372088832) := by
  rw [clampCbCrD_branches, sumCbCrD_eval, minCbCrD_eval, maxCbCrD_eval, if_neg (by norm_num),
    if_pos (by norm_num), lowFactorD_eval]
  norm_num [boxCbD, boxCrD, boxMinCbD, boxMaxCbD, boxMinCrD, boxMaxCrD, clamp, dAdd, dSub, dMul, dDiv, kb2D, kr2D, kb3D, kr3D, shift,
    roundDouble_zero, roundDouble_step1, roundDouble_step2, roundDouble_step3, roundDouble_step4, roundDouble_step5, roundDouble_step6, roundDouble_step7, roundDouble_step8, roundDouble_step9, roundDouble_step10, roundDouble_step11, roundDouble_step12, roundDouble_step13, roundDouble_step14, roundDouble_step15, roundDouble_step16, roundDouble_step17, roundDouble_step18, roundDouble_step19, roundDouble_step20, roundDouble_step21, roundDouble_step22, roundDouble_step23, roundDouble_step24, roundDouble_step25, roundDouble_step26, roundDouble_step27, roundDouble_step28, roundDouble_step29, roundDouble_step30, roundDouble_step31, roundDouble_step32, roundDouble_step33, roundDouble_step34, roundDouble_step35, roundDouble_step36, roundDouble_step37, roundDouble_step38, roundDouble_step39, roundDouble_step40]

theorem blueD_eval :
    blueD 255 (4503599627370497 / 35184372088832) = 4486007441326081 / 17592186044416 := by
  norm_num [blueD, clamp, dAdd, dSub, dMul, dDiv, kb2D, kr2D, kb3D, kr3D, shift,
    roundDouble_zero, roundDouble_step1, roundDouble_step2, roundDouble_step3, roundDouble_step4, roundDouble_step5, roundDouble_step6, roundDouble_step7, roundDouble_step8, roundDouble_step9, roundDouble_step10, roundDouble_step11, roundDouble_step12, roundDouble_step13, roundDouble_step14, roundDouble_step15, roundDouble_step16, roundDouble_step17, roundDouble_step18, roundDouble_step19, roundDouble_step20, roundDouble_step21, roundDouble_step22, roundDouble_step23, roundDouble_step24, roundDouble_step25, roundDouble_step26, roundDouble_step27, roundDouble_step28, roundDouble_step29, roundDouble_step30, roundDouble_step31, roundDouble_step32, roundDouble_step33, roundDouble_step34, roundDouble_step35, roundDouble_step36, roundDouble_step37, roundDouble_step38, roundDouble_step39, roundDouble_step40]

theorem boxMinCbD_one : boxMinCbD 1 = 8967487773828089 / 70368744177664 := by
  norm_num [boxMinCbD, clamp, dAdd, dSub, dMul, dDiv, kb2D, kr2D, kb3D, kr3D, shift,
    roundDouble_zero, roundDouble_step1, roundDouble_step2, roundDouble_step3, roundDouble_step4, roundDouble_step5, roundDouble_step6, roundDouble_step7, roundDouble_step8, roundDouble_step9, roundDouble_step10, roundDouble_step11, roundDouble_step12, roundDouble_step13, roundDouble_step14, roundDouble_step15, roundDouble_step16, roundDouble_step17, roundDouble_step18, roundDouble_step19, roundDouble_step20, roundDouble_step21, roundDouble_step22, roundDouble_step23, roundDouble_step24, roundDouble_step25, roundDouble_step26, roundDouble_step27, roundDouble_step28, roundDouble_step29, roundDouble_step30, roundDouble_step31, roundDouble_step32, roundDouble_step33, roundDouble_step34, roundDouble_step35, roundDouble_step36, roundDouble_step37, roundDouble_step38, roundDouble_step39, roundDouble_step40]

theorem clampCbCrD_dark :
    clampCbCrD 1 0 0 = (8967487773828089 / 70368744177664, 8957007568451645 / 70368744177664) := by
  have hs : sumCbCrD 1 0 0 = 296330088881467 / 2199023255552 := by
    norm_num [sumCbCrD, boxCbD, boxCrD, boxMinCbD, boxMaxCbD, boxMinCrD, boxMaxCrD, clamp, dAdd, dSub, dMul, dDiv, kb2D, kr2D, kb3D, kr3D, shift,
    roundDouble_zero, roundDouble_step1, roundDouble_step2, roundDouble_step3, roundDouble_step4, roundDouble_step5, roundDouble_step6, roundDouble_step7, roundDouble_step8, roundDouble_step9, roundDouble_step10, roundDouble_step11, roundDouble_step12, roundDouble_step13, roundDouble_step14, roundDouble_step15, roundDouble_step16, roundDouble_step17, roundDouble_step18, roundDouble_step19, roundDouble_step20, roundDouble_step21, roundDouble_step22, roundDouble_step23, roundDouble_step24, roundDouble_step25, roundDouble_step26, roundDouble_step27, roundDouble_step28, roundDouble_step29, roundDouble_step30, roundDouble_step31, roundDouble_step32, roundDouble_step33, roundDouble_step34, roundDouble_step35, roundDouble_step36, roundDouble_step37, roundDouble_step38, roundDouble_step39, roundDouble_step40]
  have hmin : minCbCrD 1 = -(16292164661449 / 137438953472) := by
    norm_num [minCbCrD, clamp, dAdd, dSub, dMul, dDiv, kb2D, kr2D, kb3D, kr3D, shift,
    roundDouble_zero, roundDouble_step1, roundDouble_step2, roundDouble_step3, roundDouble_step4, roundDouble_step5, roundDouble_step6, roundDouble_step7, roundDouble_step8, roundDouble_step9, roundDouble_step10, roundDouble_step11, roundDouble_step12, roundDouble_step13, roundDouble_step14, roundDouble_step15, roundDouble_step16, roundDouble_step17, roundDouble_step18, roundDouble_step19, roundDouble_step20, roundDouble_step21, roundDouble_step22, roundDouble_step23, roundDouble_step24, roundDouble_step25, roundDouble_step26, roundDouble_step27, roundDouble_step28, roundDouble_step29, roundDouble_step30, roundDouble_step31, roundDouble_step32, roundDouble_step33, roundDouble_step34, roundDouble_step35, roundDouble_step36, roundDouble_step37, roundDouble_step38, roundDouble_step39, roundDouble_step40]
  have hmax : maxCbCrD 1 = 18754768473911 / 137438953472 := by
    norm_num [maxCbCrD, clamp, dAdd, dSub, dMul, dDiv, kb2D, kr2D, kb3D, kr3D, shift,
    roundDouble_zero, roundDouble_step1, roundDouble_step2, roundDouble_step3, roundDouble_step4, roundDouble_step5, roundDouble_step6, roundDouble_step7, roundDouble_step8, roundDouble_step9, roundDouble_step10, roundDouble_step11, roundDouble_step12, roundDouble_step13, roundDouble_step14, roundDouble_step15, roundDouble_step16, roundDouble_step17, roundDouble_step18, roundDouble_step19, roundDouble_step20, roundDouble_step21, roundDouble_step22, roundDouble_step23, roundDouble_step24, roundDouble_step25, roundDouble_step26, roundDouble_step27, roundDouble_step28, roundDouble_step29, roundDouble_step30, roundDouble_step31, roundDouble_step32, roundDouble_step33, roundDouble_step34, roundDouble_step35, roundDouble_step36, roundDouble_step37, roundDouble_step38, roundDouble_step39, roundDouble_step40]
  rw [clampCbCrD_branches, hs, hmin, hmax, if_neg (by norm_num), if_neg (by norm_num)]
  norm_num [boxCbD, boxCrD, boxMinCbD, boxMaxCbD, boxMinCrD, boxMaxCrD, clamp, dAdd, dSub, dMul, dDiv, kb2D, kr2D, kb3D, kr3D, shift,
    roundDouble_zero, roundDouble_step1, roundDouble_step2, roundDouble_step3, roundDouble_step4, roundDouble_step5, roundDouble_step6, roundDouble_step7, roundDouble_step8, roundDouble_step9, roundDouble_step10, roundDouble_step11, roundDouble_step12, roundDouble_step13, roundDouble_step14, roundDouble_step15, roundDouble_step16, roundDouble_step17, roundDouble_step18, roundDouble_step19, roundDouble_step20, roundDouble_step21, roundDouble_step22, roundDouble_step23, roundDouble_step24, roundDouble_step25, roundDouble_step26, roundDouble_step27, roundDouble_step28, roundDouble_step29, roundDouble_step30, roundDouble_step31, roundDouble_step32, roundDouble_step33, roundDouble_step34, roundDouble_step35, roundDouble_step36, roundDouble_step37, roundDouble_step38, roundDouble_step39, roundDouble_step40]

theorem blueD_dark :
    blueD 1 (8967487773828089 / 70368744177664) = -(7 / 4503599627370496) := by
  norm_num [blueD, clamp, dAdd, dSub, dMul, dDiv, kb2D, kr2D, kb3D, kr3D, shift,
    roundDouble_zero, roundDouble_step1, roundDouble_step2, roundDouble_step3, roundDouble_step4, roundDouble_step5, roundDouble_step6, roundDouble_step7, roundDouble_step8, roundDouble_step9, roundDouble_step10, roundDouble_step11, roundDouble_step12, roundDouble_step13, roundDouble_step14, roundDouble_step15, roundDouble_step16, roundDouble_step17, roundDouble_step18, roundDouble_step19, roundDouble_step20, roundDouble_step21, roundDouble_step22, roundDouble_step23, roundDouble_step24, roundDouble_step25, roundDouble_step26, roundDouble_step27, roundDouble_step28, roundDouble_step29, roundDouble_step30, roundDouble_step31, roundDouble_step32, roundDouble_step33, roundDouble_step34, roundDouble_step35, roundDouble_step36, roundDouble_step37, roundDouble_step38, roundDouble_step39, roundDouble_step40]

/-- C17, as stated, fails in double precision: at `Y = 255`, `Cb = 0`, `Cr = 64` the
low-side branch is taken, the denominator is positive, and the factor `x` the code
computes is `1 + 2⁻⁵²`, above `1`.  The exact quotient is `1`. -/
theorem lowFactorD_exceeds_one :
    (¬ sumCbCrD 255 0 64 > maxCbCrD 255 ∧ sumCbCrD 255 0 64 < minCbCrD 255) ∧
    0 < lowDenominatorD 255 0 64 ∧
    lowFactorD 255 0 64 = 1 + 1 / 2 ^ 52 ∧
    ¬ lowFactorD 255 0 64 ≤ 1 ∧
    lowFactor 255 0 64 = 1 := by
  rw [sumCbCrD_eval, minCbCrD_eval, maxCbCrD_eval, lowDenominatorD_eval, lowFactorD_eval]
  refine ⟨by norm_num, by norm_num, by norm_num, by norm_num, ?_⟩
  norm_num [lowFactor, lowDenominator, boxCb, boxCr, clamp, boxMinCb, boxMaxCb, boxMinCr,
    boxMaxCr, minCbCr, shift, kb2, kr2, kb3, kr3]

/-- C19, as stated, fails in double precision: at `Y = 255`, `Cb = 0`, `Cr = 64` the code
returns `Cb' = 128 + 2⁻⁴⁵`, above the bound `128 + (255 - Y) / kb2 = 128`, and the implied
blue channel is `255 + 2⁻⁴⁴`; at `Y = 1`, `Cb = Cr = 0`, where no correction is applied,
the implied blue channel is `-7 * 2⁻⁵²`, below `0`. -/
theorem clampCbCrD_leaves_blue_range :
    (clampCbCrD 255 0 64).1 = 128 + 1 / 2 ^ 45 ∧
    boxMaxCbD 255 = 128 ∧ (128 : ℚ) + (255 - 255) / kb2 = 128 ∧
    ¬ (clampCbCrD 255 0 64).1 ≤ 128 ∧
    ¬ blueD 255 (clampCbCrD 255 0 64).1 ≤ 255 ∧
    (clampCbCrD 1 0 0).1 = boxMinCbD 1 ∧
    ¬ 0 ≤ blueD 1 (clampCbCrD 1 0 0).1 := by
  rw [clampCbCrD_eval, clampCbCrD_dark, boxMaxCbD_eval, boxMinCbD_one]
  simp only [blueD_eval, blueD_dark]
  norm_num

end Chroma
